import Mathlib

/-!
MEF-DoorLock: the lock / attempt / lockout controller

A shallow embedding of `src/features/doorLock/useDoorLock.js` and
`src/features/doorLock/config.js`.

Modelling conventions.

* The React state of the hook is the record `LockState`; `localStorage` is the
  association list `Store`; the pair of both is `DoorLock`.
* Every handler is a function on `DoorLock`, run against the state of the
  latest render (the handlers are re-created through `useCallback` whenever the
  state they close over changes, and every event is handled to completion
  before the next one).
* `Date.now()` is an explicit argument `now`.
* A JavaScript number is `JSNum`: a mathematical integer, or `NaN` (what
  `parseInt` returns when there is nothing to parse).  Arithmetic is exact
  integer arithmetic: attempt counts and epoch milliseconds are taken to lie
  below 2^53, where JavaScript numbers are exact.
* A string is a Lean `String`.  `value.length` is compared with `pinLength`
  only after the digit test, and on strings of digits the JavaScript length
  (UTF-16 units) and the Lean length (characters) agree.
* The two timers are events: `countdownTick` is one firing of the one-second
  interval of the countdown effect, `clearErrorState` is the firing of the
  600 ms one-shot scheduled by a failed verification.
-/

namespace DoorLock

/-! ## JavaScript values -/

/-- A JavaScript number as far as this program can produce one. -/
inductive JSNum where
  | num (n : Int)
  | nan
  deriving DecidableEq, Repr

namespace JSNum

/-- JavaScript `a + b` on numbers. -/
def add : JSNum → JSNum → JSNum
  | num a, num b => num (a + b)
  | _, _ => nan

/-- JavaScript `a - b` on numbers. -/
def sub : JSNum → JSNum → JSNum
  | num a, num b => num (a - b)
  | _, _ => nan

/-- JavaScript `a >= b`: false as soon as one side is `NaN`. -/
def ge : JSNum → JSNum → Bool
  | num a, num b => decide (b ≤ a)
  | _, _ => false

/-- JavaScript `a > b`: false as soon as one side is `NaN`. -/
def gt : JSNum → JSNum → Bool
  | num a, num b => decide (b < a)
  | _, _ => false

/-- JavaScript `Math.max(a, b)`: `NaN` as soon as one side is `NaN`. -/
def max : JSNum → JSNum → JSNum
  | num a, num b => num (Max.max a b)
  | _, _ => nan

/-- JavaScript `Number.prototype.toString()` for the values above. -/
def toJSString : JSNum → String
  | num n => toString n
  | nan => "NaN"

end JSNum

/-- The characters `parseInt` skips at the start of its input
(ECMAScript `StrWhiteSpaceChar`: white space and line terminators). -/
def isStrWhiteSpaceChar (c : Char) : Bool :=
  let n := c.toNat
  n = 0x09 || n = 0x0A || n = 0x0B || n = 0x0C || n = 0x0D || n = 0x20 || n = 0xA0
    || n = 0x1680 || (0x2000 ≤ n && n ≤ 0x200A) || n = 0x2028 || n = 0x2029
    || n = 0x202F || n = 0x205F || n = 0x3000 || n = 0xFEFF

/-- The value of a run of decimal digits, most significant first. -/
def digitsValue (ds : List Char) : Nat :=
  ds.foldl (fun acc c => acc * 10 + (c.toNat - 48)) 0

/-- JavaScript `parseInt(s, 10)`: skip leading white space, read an optional
sign, then the longest run of decimal digits; `NaN` when that run is empty. -/
def parseInt (s : String) : JSNum :=
  let cs := s.data.dropWhile isStrWhiteSpaceChar
  let signed : Bool × List Char :=
    match cs with
    | '-' :: r => (true, r)
    | '+' :: r => (false, r)
    | _ => (false, cs)
  let ds := signed.2.takeWhile Char.isDigit
  if ds.isEmpty then JSNum.nan
  else if signed.1 then JSNum.num (-(digitsValue ds : Int))
  else JSNum.num (digitsValue ds : Int)

/-- JavaScript `Math.ceil(a / b)` for an integer `a` and a positive integer `b`. -/
def ceilDiv (a b : Int) : Int := -((-a) / b)

/-- The regular expression test `/^\d*$/.test(value)`: every character of
`value` is one of `0`..`9` (the empty string passes). -/
def allDigits (value : String) : Bool := value.data.all Char.isDigit

/-! ## localStorage -/

/-- The browser storage: an association list from keys to string values. -/
abbrev Store := List (String × String)

/-- The call `localStorage.getItem(key)`: `none` is JavaScript `null`. -/
def getItem : Store → String → Option String
  | [], _ => none
  | (k, v) :: rest, key => if k = key then some v else getItem rest key

/-- The call `localStorage.setItem(key, value)`. -/
def setItem : Store → String → String → Store
  | [], key, value => [(key, value)]
  | (k, v) :: rest, key, value =>
      if k = key then (key, value) :: rest else (k, v) :: setItem rest key value

/-- The call `localStorage.removeItem(key)`. -/
def removeItem (ls : Store) (key : String) : Store :=
  ls.filter (fun kv => decide (kv.1 ≠ key))

/-- JavaScript truthiness of a `getItem` result: neither `null` nor `""`. -/
def truthy : Option String → Bool
  | some v => decide (v ≠ "")
  | none => false

/-! ## config.js -/

/-- The record `DOOR_LOCK_CONFIG.storageKeys`. -/
structure StorageKeys where
  unlockState : String
  lockoutUntil : String
  attemptCount : String
  deriving DecidableEq, Repr

/-- The fields of `DOOR_LOCK_CONFIG` the hook reads. -/
structure Config where
  correctPassword : String
  maxAttempts : Int
  lockoutDurationSeconds : Int
  storageKeys : StorageKeys
  pinLength : Nat
  deriving DecidableEq, Repr

/-- The constant `DOOR_LOCK_CONFIG`; the argument is the environment value
`import.meta.env.VITE_DOOR_PASSWORD` (`none` when it is not defined). -/
def DOOR_LOCK_CONFIG (VITE_DOOR_PASSWORD : Option String) : Config where
  correctPassword :=
    match VITE_DOOR_PASSWORD with
    | some p => if p ≠ "" then p else "8765"
    | none => "8765"
  maxAttempts := 5
  lockoutDurationSeconds := 30
  storageKeys :=
    { unlockState := "doorLock_unlockState"
      lockoutUntil := "doorLock_lockoutUntil"
      attemptCount := "doorLock_attemptCount" }
  pinLength := 4

/-! ## useDoorLock.js -/

/-- The seven `useState` cells of `useDoorLock`. -/
structure LockState where
  isUnlocked : Bool
  password : String
  attemptCount : JSNum
  isLockedOut : Bool
  lockoutTimeRemaining : Int
  showError : Bool
  lastAttemptFailed : Bool
  deriving DecidableEq, Repr

end DoorLock

/-- The hook state together with the storage it persists to. -/
structure DoorLock where
  state : DoorLock.LockState
  localStorage : DoorLock.Store
  deriving DecidableEq, Repr

namespace DoorLock

/-- The initial values passed to `useState`. -/
def initialState : LockState where
  isUnlocked := false
  password := ""
  attemptCount := JSNum.num 0
  isLockedOut := false
  lockoutTimeRemaining := 0
  showError := false
  lastAttemptFailed := false

/-- The mount effect "Load persisted state on mount" (useDoorLock.js 26-60),
run on the initial state with the storage `ls` at time `now`. -/
def loadPersistedState (cfg : Config) (now : Int) (ls : Store) : DoorLock :=
  let savedUnlockState := getItem ls cfg.storageKeys.unlockState
  let savedLockoutUntil := getItem ls cfg.storageKeys.lockoutUntil
  let savedAttemptCount := getItem ls cfg.storageKeys.attemptCount
  let s0 := initialState
  let s1 := if savedUnlockState = some "true" then { s0 with isUnlocked := true } else s0
  let s2 :=
    if truthy savedAttemptCount then
      { s1 with attemptCount := parseInt (savedAttemptCount.getD "") }
    else s1
  if truthy savedLockoutUntil then
    let lockoutUntil := parseInt (savedLockoutUntil.getD "")
    if JSNum.gt lockoutUntil (JSNum.num now) then
      match lockoutUntil with
      | JSNum.num u =>
          { state := { s2 with isLockedOut := true
                               lockoutTimeRemaining := ceilDiv (u - now) 1000 }
            localStorage := ls }
      | JSNum.nan => { state := s2, localStorage := ls }
    else
      { state := { s2 with attemptCount := JSNum.num 0 }
        localStorage :=
          removeItem (removeItem ls cfg.storageKeys.lockoutUntil) cfg.storageKeys.attemptCount }
  else { state := s2, localStorage := ls }

/-- One firing of the interval of the effect "Countdown timer for lockout"
(useDoorLock.js 62-81).  The interval only exists while `isLockedOut` holds and
`lockoutTimeRemaining` is positive. -/
def countdownTick (cfg : Config) (d : DoorLock) : DoorLock :=
  if !d.state.isLockedOut || decide (d.state.lockoutTimeRemaining ≤ 0) then d
  else if d.state.lockoutTimeRemaining ≤ 1 then
    { state := { d.state with isLockedOut := false
                              attemptCount := JSNum.num 0
                              lockoutTimeRemaining := 0 }
      localStorage :=
        removeItem (removeItem d.localStorage cfg.storageKeys.lockoutUntil)
          cfg.storageKeys.attemptCount }
  else
    { d with state := { d.state with lockoutTimeRemaining := d.state.lockoutTimeRemaining - 1 } }

/-- The handler `verifyPassword(passwordToVerify = password)`
(useDoorLock.js 86-132); `none` is a call without argument. -/
def verifyPassword (cfg : Config) (now : Int) (d : DoorLock)
    (passwordToVerify : Option String) : DoorLock :=
  if d.state.isLockedOut then d
  else
    let isCorrect : Bool := decide (passwordToVerify.getD d.state.password = cfg.correctPassword)
    if isCorrect then
      { state := { d.state with isUnlocked := true
                                showError := false
                                lastAttemptFailed := false
                                attemptCount := JSNum.num 0
                                password := "" }
        localStorage :=
          removeItem (setItem d.localStorage cfg.storageKeys.unlockState "true")
            cfg.storageKeys.attemptCount }
    else
      let newAttemptCount := JSNum.add d.state.attemptCount (JSNum.num 1)
      let s1 : LockState :=
        { d.state with attemptCount := newAttemptCount
                       showError := true
                       lastAttemptFailed := true
                       password := "" }
      let ls1 := setItem d.localStorage cfg.storageKeys.attemptCount newAttemptCount.toJSString
      if JSNum.ge newAttemptCount (JSNum.num cfg.maxAttempts) then
        let lockoutUntil : Int := now + cfg.lockoutDurationSeconds * 1000
        { state := { s1 with isLockedOut := true
                             lockoutTimeRemaining := cfg.lockoutDurationSeconds }
          localStorage := setItem ls1 cfg.storageKeys.lockoutUntil (toString lockoutUntil) }
      else { state := s1, localStorage := ls1 }

/-- The one-shot callback "Clear error state after animation" scheduled by a
failed verification (useDoorLock.js 127-130). -/
def clearErrorState (d : DoorLock) : DoorLock :=
  { d with state := { d.state with showError := false, lastAttemptFailed := false } }

/-- The handler `lockDoor()` (useDoorLock.js 137-143). -/
def lockDoor (cfg : Config) (d : DoorLock) : DoorLock :=
  { state := { d.state with isUnlocked := false
                            password := ""
                            showError := false
                            lastAttemptFailed := false }
    localStorage := removeItem d.localStorage cfg.storageKeys.unlockState }

/-- The handler `updatePassword(value)` (useDoorLock.js 148-154). -/
def updatePassword (cfg : Config) (d : DoorLock) (value : String) : DoorLock :=
  if d.state.isLockedOut then d
  else if allDigits value && decide (value.length ≤ cfg.pinLength) then
    { d with state := { d.state with password := value } }
  else d

/-- The handler `clearPassword()` (useDoorLock.js 159-163). -/
def clearPassword (d : DoorLock) : DoorLock :=
  if !d.state.isLockedOut then { d with state := { d.state with password := "" } }
  else d

/-- The handler `handleKeyPress(event)` (useDoorLock.js 168-179); `key` is
`event.key`. -/
def handleKeyPress (cfg : Config) (now : Int) (d : DoorLock) (key : String) : DoorLock :=
  if d.state.isLockedOut then d
  else if key = "Enter" ∧ d.state.password.length = cfg.pinLength then
    verifyPassword cfg now d none
  else if key = "Escape" then clearPassword d
  else d

/-- The derived value `remainingAttempts` returned by the hook
(useDoorLock.js 190). -/
def remainingAttempts (cfg : Config) (s : LockState) : JSNum :=
  JSNum.max (JSNum.num 0) (JSNum.sub (JSNum.num cfg.maxAttempts) s.attemptCount)

/-! ## Events and runs -/

/-- What can happen to a mounted hook: a call of one of the five handlers, or
the firing of one of the two timers. -/
inductive Event where
  | updatePassword (value : String)
  | verifyPassword (passwordToVerify : Option String) (now : Int)
  | lockDoor
  | clearPassword
  | handleKeyPress (key : String) (now : Int)
  | countdownTick
  | clearErrorState
  deriving DecidableEq, Repr

/-- The effect of one event. -/
def step (cfg : Config) (d : DoorLock) : Event → DoorLock
  | Event.updatePassword value => updatePassword cfg d value
  | Event.verifyPassword p now => verifyPassword cfg now d p
  | Event.lockDoor => lockDoor cfg d
  | Event.clearPassword => clearPassword d
  | Event.handleKeyPress key now => handleKeyPress cfg now d key
  | Event.countdownTick => countdownTick cfg d
  | Event.clearErrorState => clearErrorState d

/-- The effect of a sequence of events, in order. -/
def run (cfg : Config) (d : DoorLock) (es : List Event) : DoorLock :=
  es.foldl (step cfg) d

/-- The hook after `k` firings of the countdown interval. -/
def ticks (cfg : Config) : Nat → DoorLock → DoorLock
  | 0, d => d
  | k + 1, d => ticks cfg k (countdownTick cfg d)

/-- A run of consecutive `verifyPassword` calls, each with its argument and the
time at which it is made. -/
def verifyEvents (calls : List (Option String × Int)) : List Event :=
  calls.map (fun a => Event.verifyPassword a.1 a.2)

/-- The value a verification compares with the PIN, when it is performed by the
event `e` in the state `d`: the argument of `verifyPassword` (the current
`password` when absent), or the current `password` for an `Enter` key press on
a full-length input.  `none` for an event that verifies nothing. -/
def comparedValue (cfg : Config) (d : DoorLock) : Event → Option String
  | Event.verifyPassword p _ => some (p.getD d.state.password)
  | Event.handleKeyPress key _ =>
      if key = "Enter" ∧ d.state.password.length = cfg.pinLength then some d.state.password
      else none
  | _ => none

/-- Whether the event `e`, handled in the state `d`, is a verification whose
compared value differs from the configured PIN. -/
def failsVerification (cfg : Config) (d : DoorLock) (e : Event) : Bool :=
  match comparedValue cfg d e with
  | some v => decide (v ≠ cfg.correctPassword)
  | none => false

/-- Whether, along the run of `es` from `d`, no verification with a value
different from the PIN is handled in a state where `isUnlocked` holds (the
keypad, the only caller of the verification, is rendered only while
`isUnlocked` is false: DoorLockFeature.jsx 37-41). -/
def failsOnlyWhileLocked (cfg : Config) : DoorLock → List Event → Bool
  | _, [] => true
  | d, e :: es =>
      !(d.state.isUnlocked && failsVerification cfg d e)
        && failsOnlyWhileLocked cfg (step cfg d e) es

/-- Whether the attempt counter and the lockout flag of a state fit together:
`attemptCount` is an integer, equal to `maxAttempts` when `isLockedOut` holds
and below `maxAttempts` when it does not. -/
def attemptsConsistent (cfg : Config) (s : LockState) : Bool :=
  match s.attemptCount with
  | JSNum.num n =>
      if s.isLockedOut then decide (n = cfg.maxAttempts) else decide (n < cfg.maxAttempts)
  | JSNum.nan => false

end DoorLock

namespace DoorLock

/-! ## Storage lemmas -/

theorem getItem_setItem_same (ls : Store) (key value : String) :
    getItem (setItem ls key value) key = some value := by
  induction ls with
  | nil => simp [setItem, getItem]
  | cons kv rest ih =>
    obtain ⟨k, v⟩ := kv
    by_cases h : k = key
    · simp [setItem, getItem, h]
    · simp [setItem, getItem, h, ih]

theorem getItem_setItem_other (ls : Store) (key value other : String) (h : other ≠ key) :
    getItem (setItem ls key value) other = getItem ls other := by
  induction ls with
  | nil => simp [setItem, getItem, Ne.symm h]
  | cons kv rest ih =>
    obtain ⟨k, v⟩ := kv
    by_cases hk : k = key
    · subst hk
      simp [setItem, getItem, Ne.symm h]
    · by_cases ho : k = other
      · subst ho
        simp [setItem, getItem, hk]
      · simp [setItem, getItem, hk, ho, ih]

theorem getItem_removeItem_same (ls : Store) (key : String) :
    getItem (removeItem ls key) key = none := by
  induction ls with
  | nil => simp [removeItem, getItem]
  | cons kv rest ih =>
    obtain ⟨k, v⟩ := kv
    by_cases h : k = key
    · simpa [removeItem, List.filter, h] using ih
    · simpa [removeItem, List.filter, h, getItem] using ih

theorem getItem_removeItem_other (ls : Store) (key other : String) (h : other ≠ key) :
    getItem (removeItem ls key) other = getItem ls other := by
  induction ls with
  | nil => simp [removeItem, getItem]
  | cons kv rest ih =>
    obtain ⟨k, v⟩ := kv
    by_cases hk : k = key
    · subst hk
      simpa [removeItem, List.filter, getItem, Ne.symm h] using ih
    · by_cases ho : k = other
      · subst ho
        simp [removeItem, List.filter, hk, getItem]
      · simpa [removeItem, List.filter, hk, getItem, ho] using ih

/-! ## Configuration lemmas -/

@[simp] theorem config_maxAttempts (env : Option String) :
    (DOOR_LOCK_CONFIG env).maxAttempts = 5 := rfl

@[simp] theorem config_lockoutDurationSeconds (env : Option String) :
    (DOOR_LOCK_CONFIG env).lockoutDurationSeconds = 30 := rfl

@[simp] theorem config_pinLength (env : Option String) :
    (DOOR_LOCK_CONFIG env).pinLength = 4 := rfl

@[simp] theorem config_unlockState (env : Option String) :
    (DOOR_LOCK_CONFIG env).storageKeys.unlockState = "doorLock_unlockState" := rfl

@[simp] theorem config_lockoutUntil (env : Option String) :
    (DOOR_LOCK_CONFIG env).storageKeys.lockoutUntil = "doorLock_lockoutUntil" := rfl

@[simp] theorem config_attemptCount (env : Option String) :
    (DOOR_LOCK_CONFIG env).storageKeys.attemptCount = "doorLock_attemptCount" := rfl

theorem config_correctPassword_ne_empty (env : Option String) :
    (DOOR_LOCK_CONFIG env).correctPassword ≠ "" := by
  unfold DOOR_LOCK_CONFIG
  cases env with
  | none => simp
  | some p =>
    by_cases h : p = ""
    · simp [h]
    · simp [h]

/-! ## Verification -/

/-- The result of a verification that matches, spelled out. -/
theorem verifyPassword_match (cfg : Config) (now : Int) (d : DoorLock) (p : Option String)
    (hl : d.state.isLockedOut = false)
    (hp : p.getD d.state.password = cfg.correctPassword) :
    verifyPassword cfg now d p =
      { state := { d.state with isUnlocked := true
                                showError := false
                                lastAttemptFailed := false
                                attemptCount := JSNum.num 0
                                password := "" }
        localStorage :=
          removeItem (setItem d.localStorage cfg.storageKeys.unlockState "true")
            cfg.storageKeys.attemptCount } := by
  simp [verifyPassword, hl, hp]

/-- The result of a verification that does not match and stays below the
attempt limit, spelled out. -/
theorem verifyPassword_mismatch_below (cfg : Config) (now : Int) (d : DoorLock)
    (p : Option String)
    (hl : d.state.isLockedOut = false)
    (hp : p.getD d.state.password ≠ cfg.correctPassword)
    (hb : JSNum.ge (JSNum.add d.state.attemptCount (JSNum.num 1))
      (JSNum.num cfg.maxAttempts) = false) :
    verifyPassword cfg now d p =
      { state := { d.state with attemptCount := JSNum.add d.state.attemptCount (JSNum.num 1)
                                showError := true
                                lastAttemptFailed := true
                                password := "" }
        localStorage :=
          setItem d.localStorage cfg.storageKeys.attemptCount
            (JSNum.add d.state.attemptCount (JSNum.num 1)).toJSString } := by
  simp [verifyPassword, hl, hp, hb]

/-- The result of a verification that does not match and reaches the attempt
limit, spelled out. -/
theorem verifyPassword_mismatch_limit (cfg : Config) (now : Int) (d : DoorLock)
    (p : Option String)
    (hl : d.state.isLockedOut = false)
    (hp : p.getD d.state.password ≠ cfg.correctPassword)
    (hb : JSNum.ge (JSNum.add d.state.attemptCount (JSNum.num 1))
      (JSNum.num cfg.maxAttempts) = true) :
    verifyPassword cfg now d p =
      { state := { d.state with attemptCount := JSNum.add d.state.attemptCount (JSNum.num 1)
                                showError := true
                                lastAttemptFailed := true
                                password := ""
                                isLockedOut := true
                                lockoutTimeRemaining := cfg.lockoutDurationSeconds }
        localStorage :=
          setItem
            (setItem d.localStorage cfg.storageKeys.attemptCount
              (JSNum.add d.state.attemptCount (JSNum.num 1)).toJSString)
            cfg.storageKeys.lockoutUntil
            (toString (now + cfg.lockoutDurationSeconds * 1000)) } := by
  simp [verifyPassword, hl, hp, hb]

/-- A failed verification does not touch `isUnlocked`. -/
theorem verifyPassword_mismatch_isUnlocked (cfg : Config) (now : Int) (d : DoorLock)
    (p : Option String)
    (hl : d.state.isLockedOut = false)
    (hp : p.getD d.state.password ≠ cfg.correctPassword) :
    (verifyPassword cfg now d p).state.isUnlocked = d.state.isUnlocked := by
  cases hb : JSNum.ge (JSNum.add d.state.attemptCount (JSNum.num 1))
      (JSNum.num cfg.maxAttempts) with
  | false => rw [verifyPassword_mismatch_below _ now d p hl hp hb]
  | true => rw [verifyPassword_mismatch_limit _ now d p hl hp hb]

/-- After a failed verification that locks out, the countdown starts at 30. -/
theorem verify_incorrect_lockout_aux (env : Option String) (now : Int) (d : DoorLock)
    (p : Option String)
    (hl : d.state.isLockedOut = false)
    (hp : p.getD d.state.password ≠ (DOOR_LOCK_CONFIG env).correctPassword) :
    (verifyPassword (DOOR_LOCK_CONFIG env) now d p).state.isLockedOut = true →
    (verifyPassword (DOOR_LOCK_CONFIG env) now d p).state.lockoutTimeRemaining = 30 := by
  cases hb : JSNum.ge (JSNum.add d.state.attemptCount (JSNum.num 1))
      (JSNum.num (DOOR_LOCK_CONFIG env).maxAttempts) with
  | false =>
    rw [verifyPassword_mismatch_below _ now d p hl hp hb]
    intro h
    exact absurd (show d.state.isLockedOut = true from h) (by simp [hl])
  | true =>
    rw [verifyPassword_mismatch_limit _ now d p hl hp hb]
    intro _
    rfl

/-- C1: from a state that is not locked out, a verification whose compared
value (the argument when given, otherwise `password`) equals the configured
PIN sets `isUnlocked`, empties `password`, resets `attemptCount` to 0, clears
`showError` and `lastAttemptFailed`, stores "true" under the unlock key and
removes the attempt-count key. -/
theorem verify_correct_unlocks (env : Option String) (now : Int) (d : DoorLock)
    (p : Option String)
    (hl : d.state.isLockedOut = false)
    (hp : p.getD d.state.password = (DOOR_LOCK_CONFIG env).correctPassword) :
    (verifyPassword (DOOR_LOCK_CONFIG env) now d p).state.isUnlocked = true
    ∧ (verifyPassword (DOOR_LOCK_CONFIG env) now d p).state.password = ""
    ∧ (verifyPassword (DOOR_LOCK_CONFIG env) now d p).state.attemptCount = JSNum.num 0
    ∧ (verifyPassword (DOOR_LOCK_CONFIG env) now d p).state.showError = false
    ∧ (verifyPassword (DOOR_LOCK_CONFIG env) now d p).state.lastAttemptFailed = false
    ∧ getItem (verifyPassword (DOOR_LOCK_CONFIG env) now d p).localStorage
        (DOOR_LOCK_CONFIG env).storageKeys.unlockState = some "true"
    ∧ getItem (verifyPassword (DOOR_LOCK_CONFIG env) now d p).localStorage
        (DOOR_LOCK_CONFIG env).storageKeys.attemptCount = none := by
  rw [verifyPassword_match _ now d p hl hp]
  refine ⟨rfl, rfl, rfl, rfl, rfl, ?_, ?_⟩
  · rw [getItem_removeItem_other _ _ _ (by simp)]
    exact getItem_setItem_same _ _ _
  · exact getItem_removeItem_same _ _

/-- C1 at a concrete input: the freshly constructed hook, default PIN, the PIN
passed as argument. -/
theorem verify_correct_unlocks_witness :
    (DoorLock.mk initialState []).state.isLockedOut = false
    ∧ (some "8765").getD (DoorLock.mk initialState []).state.password
        = (DOOR_LOCK_CONFIG none).correctPassword
    ∧ (verifyPassword (DOOR_LOCK_CONFIG none) 0 (DoorLock.mk initialState [])
        (some "8765")).state.isUnlocked = true
    ∧ getItem (verifyPassword (DOOR_LOCK_CONFIG none) 0 (DoorLock.mk initialState [])
        (some "8765")).localStorage "doorLock_unlockState" = some "true" :=
  ⟨rfl, rfl,
    (verify_correct_unlocks none 0 (DoorLock.mk initialState []) (some "8765") rfl rfl).1,
    (verify_correct_unlocks none 0 (DoorLock.mk initialState []) (some "8765") rfl rfl).2.2.2.2.2.1⟩

/-- C2: from a state that is not locked out, a verification whose compared
value differs from the configured PIN adds exactly 1 to `attemptCount` (from
`n` to `n + 1`), empties `password`, sets `showError` and `lastAttemptFailed`,
leaves `isUnlocked` as it was, and stores the decimal string of the new
`attemptCount` under the attempt-count key. -/
theorem verify_incorrect_counts (env : Option String) (now : Int) (d : DoorLock)
    (p : Option String)
    (hl : d.state.isLockedOut = false)
    (hp : p.getD d.state.password ≠ (DOOR_LOCK_CONFIG env).correctPassword) :
    (verifyPassword (DOOR_LOCK_CONFIG env) now d p).state.attemptCount
        = JSNum.add d.state.attemptCount (JSNum.num 1)
    ∧ (∀ n : Int, d.state.attemptCount = JSNum.num n →
        (verifyPassword (DOOR_LOCK_CONFIG env) now d p).state.attemptCount = JSNum.num (n + 1)
        ∧ getItem (verifyPassword (DOOR_LOCK_CONFIG env) now d p).localStorage
            (DOOR_LOCK_CONFIG env).storageKeys.attemptCount = some (toString (n + 1)))
    ∧ (verifyPassword (DOOR_LOCK_CONFIG env) now d p).state.password = ""
    ∧ (verifyPassword (DOOR_LOCK_CONFIG env) now d p).state.showError = true
    ∧ (verifyPassword (DOOR_LOCK_CONFIG env) now d p).state.lastAttemptFailed = true
    ∧ (verifyPassword (DOOR_LOCK_CONFIG env) now d p).state.isUnlocked = d.state.isUnlocked
    ∧ getItem (verifyPassword (DOOR_LOCK_CONFIG env) now d p).localStorage
        (DOOR_LOCK_CONFIG env).storageKeys.attemptCount
        = some (verifyPassword (DOOR_LOCK_CONFIG env) now d p).state.attemptCount.toJSString := by
  have key : (verifyPassword (DOOR_LOCK_CONFIG env) now d p).state.attemptCount
        = JSNum.add d.state.attemptCount (JSNum.num 1)
      ∧ (verifyPassword (DOOR_LOCK_CONFIG env) now d p).state.password = ""
      ∧ (verifyPassword (DOOR_LOCK_CONFIG env) now d p).state.showError = true
      ∧ (verifyPassword (DOOR_LOCK_CONFIG env) now d p).state.lastAttemptFailed = true
      ∧ (verifyPassword (DOOR_LOCK_CONFIG env) now d p).state.isUnlocked = d.state.isUnlocked
      ∧ getItem (verifyPassword (DOOR_LOCK_CONFIG env) now d p).localStorage
          (DOOR_LOCK_CONFIG env).storageKeys.attemptCount
          = some (JSNum.add d.state.attemptCount (JSNum.num 1)).toJSString := by
    cases hb : JSNum.ge (JSNum.add d.state.attemptCount (JSNum.num 1))
        (JSNum.num (DOOR_LOCK_CONFIG env).maxAttempts) with
    | false =>
      rw [verifyPassword_mismatch_below _ now d p hl hp hb]
      exact ⟨rfl, rfl, rfl, rfl, rfl, getItem_setItem_same _ _ _⟩
    | true =>
      rw [verifyPassword_mismatch_limit _ now d p hl hp hb]
      refine ⟨rfl, rfl, rfl, rfl, rfl, ?_⟩
      show getItem (setItem (setItem _ _ _) _ _) _ = _
      rw [getItem_setItem_other _ _ _ _ (by simp)]
      exact getItem_setItem_same _ _ _
  obtain ⟨h1, h2, h3, h4, h5, h6⟩ := key
  refine ⟨h1, ?_, h2, h3, h4, h5, ?_⟩
  · intro n hn
    rw [h1, h6, hn]
    exact ⟨rfl, rfl⟩
  · rw [h6, h1]

/-- C2 at a concrete input: the freshly constructed hook, default PIN, the
wrong value "1234". -/
theorem verify_incorrect_counts_witness :
    (DoorLock.mk initialState []).state.isLockedOut = false
    ∧ (some "1234").getD (DoorLock.mk initialState []).state.password
        ≠ (DOOR_LOCK_CONFIG none).correctPassword
    ∧ (verifyPassword (DOOR_LOCK_CONFIG none) 0 (DoorLock.mk initialState [])
        (some "1234")).state.attemptCount = JSNum.num 1
    ∧ getItem (verifyPassword (DOOR_LOCK_CONFIG none) 0 (DoorLock.mk initialState [])
        (some "1234")).localStorage "doorLock_attemptCount" = some "1" :=
  ⟨rfl, by decide,
    ((verify_incorrect_counts none 0 (DoorLock.mk initialState []) (some "1234") rfl
      (by decide)).2.1 0 rfl).1,
    ((verify_incorrect_counts none 0 (DoorLock.mk initialState []) (some "1234") rfl
      (by decide)).2.1 0 rfl).2⟩

/-- C3: after a verification that does not match, from a state that is not
locked out, `isLockedOut` holds exactly when the new `attemptCount` is at least
`maxAttempts` (5).  When it holds, `lockoutTimeRemaining` is
`lockoutDurationSeconds` (30) and the lockout-until key holds the decimal
string of `now + 30 * 1000`; when it does not, `lockoutTimeRemaining` and the
lockout-until key are as before. -/
theorem verify_incorrect_lockout (env : Option String) (now : Int) (d : DoorLock)
    (p : Option String)
    (hl : d.state.isLockedOut = false)
    (hp : p.getD d.state.password ≠ (DOOR_LOCK_CONFIG env).correctPassword) :
    ((verifyPassword (DOOR_LOCK_CONFIG env) now d p).state.isLockedOut = true ↔
        JSNum.ge (verifyPassword (DOOR_LOCK_CONFIG env) now d p).state.attemptCount
          (JSNum.num (DOOR_LOCK_CONFIG env).maxAttempts) = true)
    ∧ (∀ m : Int,
        (verifyPassword (DOOR_LOCK_CONFIG env) now d p).state.attemptCount = JSNum.num m →
        ((verifyPassword (DOOR_LOCK_CONFIG env) now d p).state.isLockedOut = true ↔ 5 ≤ m))
    ∧ ((verifyPassword (DOOR_LOCK_CONFIG env) now d p).state.isLockedOut = true →
        (verifyPassword (DOOR_LOCK_CONFIG env) now d p).state.lockoutTimeRemaining = 30
        ∧ getItem (verifyPassword (DOOR_LOCK_CONFIG env) now d p).localStorage
            (DOOR_LOCK_CONFIG env).storageKeys.lockoutUntil
            = some (toString (now + 30 * 1000)))
    ∧ ((verifyPassword (DOOR_LOCK_CONFIG env) now d p).state.isLockedOut = false →
        (verifyPassword (DOOR_LOCK_CONFIG env) now d p).state.lockoutTimeRemaining
            = d.state.lockoutTimeRemaining
        ∧ getItem (verifyPassword (DOOR_LOCK_CONFIG env) now d p).localStorage
            (DOOR_LOCK_CONFIG env).storageKeys.lockoutUntil
            = getItem d.localStorage (DOOR_LOCK_CONFIG env).storageKeys.lockoutUntil) := by
  cases hb : JSNum.ge (JSNum.add d.state.attemptCount (JSNum.num 1))
      (JSNum.num (DOOR_LOCK_CONFIG env).maxAttempts) with
  | false =>
    rw [verifyPassword_mismatch_below _ now d p hl hp hb]
    refine ⟨?_, ?_, ?_, ?_⟩
    · simp only [config_maxAttempts] at hb
      simp [hb, hl]
    · intro m hm
      have hm' : JSNum.add d.state.attemptCount (JSNum.num 1) = JSNum.num m := hm
      rw [hm'] at hb
      have : ¬ (5 : Int) ≤ m := by simpa [JSNum.ge] using hb
      simp [hl, this]
    · intro h
      have : d.state.isLockedOut = true := h
      rw [hl] at this
      exact absurd this (by decide)
    · intro _
      refine ⟨rfl, ?_⟩
      show getItem (setItem _ _ _) _ = _
      exact getItem_setItem_other _ _ _ _ (by simp)
  | true =>
    rw [verifyPassword_mismatch_limit _ now d p hl hp hb]
    refine ⟨?_, ?_, ?_, ?_⟩
    · simp only [config_maxAttempts] at hb
      simp [hb]
    · intro m hm
      have hm' : JSNum.add d.state.attemptCount (JSNum.num 1) = JSNum.num m := hm
      rw [hm'] at hb
      have : (5 : Int) ≤ m := by simpa [JSNum.ge] using hb
      simp [this]
    · intro _
      refine ⟨rfl, ?_⟩
      show getItem (setItem _ _ _) _ = _
      exact getItem_setItem_same _ _ _
    · intro h
      exact absurd h (by simp)

/-- C3 at a concrete input: four failures already counted, the fifth one at
time 1000 locks out until 31000. -/
theorem verify_incorrect_lockout_witness :
    (DoorLock.mk { initialState with attemptCount := JSNum.num 4 } []).state.isLockedOut = false
    ∧ (some "0000").getD
        (DoorLock.mk { initialState with attemptCount := JSNum.num 4 } []).state.password
        ≠ (DOOR_LOCK_CONFIG none).correctPassword
    ∧ ((verifyPassword (DOOR_LOCK_CONFIG none) 1000
          (DoorLock.mk { initialState with attemptCount := JSNum.num 4 } [])
          (some "0000")).state.isLockedOut = true →
        (verifyPassword (DOOR_LOCK_CONFIG none) 1000
          (DoorLock.mk { initialState with attemptCount := JSNum.num 4 } [])
          (some "0000")).state.lockoutTimeRemaining = 30
        ∧ getItem (verifyPassword (DOOR_LOCK_CONFIG none) 1000
            (DoorLock.mk { initialState with attemptCount := JSNum.num 4 } [])
            (some "0000")).localStorage
            (DOOR_LOCK_CONFIG none).storageKeys.lockoutUntil
            = some (toString ((1000 : Int) + 30 * 1000))) :=
  ⟨rfl, by decide,
    (verify_incorrect_lockout none 1000
      (DoorLock.mk { initialState with attemptCount := JSNum.num 4 } []) (some "0000") rfl
      (by decide)).2.2.1⟩

/-! ## Consecutive failed verifications -/

theorem run_cons (cfg : Config) (d : DoorLock) (e : Event) (es : List Event) :
    run cfg d (e :: es) = run cfg (step cfg d e) es := rfl

theorem run_append (cfg : Config) (d : DoorLock) (es fs : List Event) :
    run cfg d (es ++ fs) = run cfg (run cfg d es) fs := by
  simp [run, List.foldl_append]

/-- The hook after a run of failed verifications that stays below the attempt
limit: `attemptCount` has grown by the number of calls, nothing is locked out,
and the storage holds the new count. -/
theorem run_failed_verifies_below (env : Option String) :
    ∀ (calls : List (Option String × Int)) (d : DoorLock) (n : Int),
      d.state.isLockedOut = false → d.state.password = "" →
      d.state.attemptCount = JSNum.num n → n + calls.length < 5 →
      (∀ a ∈ calls, a.1.getD "" ≠ (DOOR_LOCK_CONFIG env).correctPassword) →
      (run (DOOR_LOCK_CONFIG env) d (verifyEvents calls)).state.isLockedOut = false
      ∧ (run (DOOR_LOCK_CONFIG env) d (verifyEvents calls)).state.password = ""
      ∧ (run (DOOR_LOCK_CONFIG env) d (verifyEvents calls)).state.attemptCount
          = JSNum.num (n + calls.length)
      ∧ (run (DOOR_LOCK_CONFIG env) d (verifyEvents calls)).state.isUnlocked
          = d.state.isUnlocked
      ∧ (run (DOOR_LOCK_CONFIG env) d (verifyEvents calls)).state.lockoutTimeRemaining
          = d.state.lockoutTimeRemaining
      ∧ getItem (run (DOOR_LOCK_CONFIG env) d (verifyEvents calls)).localStorage
          "doorLock_lockoutUntil" = getItem d.localStorage "doorLock_lockoutUntil"
      ∧ getItem (run (DOOR_LOCK_CONFIG env) d (verifyEvents calls)).localStorage
          "doorLock_unlockState" = getItem d.localStorage "doorLock_unlockState"
      ∧ (calls ≠ [] →
          getItem (run (DOOR_LOCK_CONFIG env) d (verifyEvents calls)).localStorage
            "doorLock_attemptCount" = some (toString (n + calls.length))) := by
  intro calls
  induction calls with
  | nil =>
    intro d n hl hpw hn _ _
    simp [verifyEvents, run, hl, hpw, hn]
  | cons a rest ih =>
    intro d n hl hpw hn hlen hw
    have hlen' : n + 1 + (rest.length : Int) < 5 := by
      simp only [List.length_cons, Nat.cast_add, Nat.cast_one] at hlen
      omega
    have ha : a.1.getD d.state.password ≠ (DOOR_LOCK_CONFIG env).correctPassword := by
      rw [hpw]
      exact hw a (List.mem_cons_self _ _)
    have hb : JSNum.ge (JSNum.add d.state.attemptCount (JSNum.num 1))
        (JSNum.num (DOOR_LOCK_CONFIG env).maxAttempts) = false := by
      rw [hn]
      simp only [JSNum.add, JSNum.ge, config_maxAttempts, decide_eq_false_iff_not, not_le]
      have : (0 : Int) ≤ (rest.length : Int) := Int.natCast_nonneg _
      omega
    have hstep : step (DOOR_LOCK_CONFIG env) d (Event.verifyPassword a.1 a.2)
        = verifyPassword (DOOR_LOCK_CONFIG env) a.2 d a.1 := rfl
    have hrun : run (DOOR_LOCK_CONFIG env) d (verifyEvents (a :: rest))
        = run (DOOR_LOCK_CONFIG env) (verifyPassword (DOOR_LOCK_CONFIG env) a.2 d a.1)
            (verifyEvents rest) := by
      simp [verifyEvents, run_cons, hstep]
    rw [hrun, verifyPassword_mismatch_below _ a.2 d a.1 hl ha hb]
    have hrec := ih
      { state := { d.state with attemptCount := JSNum.add d.state.attemptCount (JSNum.num 1)
                                showError := true
                                lastAttemptFailed := true
                                password := "" }
        localStorage :=
          setItem d.localStorage (DOOR_LOCK_CONFIG env).storageKeys.attemptCount
            (JSNum.add d.state.attemptCount (JSNum.num 1)).toJSString }
      (n + 1) hl rfl (by rw [hn]; rfl) hlen'
      (fun b hb => hw b (List.mem_cons_of_mem _ hb))
    obtain ⟨h1, h2, h3, h4, h5, h6, h7, h8⟩ := hrec
    have hcast : n + 1 + (rest.length : Int) = n + ((a :: rest).length : Int) := by
      simp only [List.length_cons, Nat.cast_add, Nat.cast_one]
      omega
    refine ⟨h1, h2, ?_, h4, h5, ?_, ?_, ?_⟩
    · rw [h3, hcast]
    · rw [h6]
      exact getItem_setItem_other _ _ _ _ (by simp)
    · rw [h7]
      exact getItem_setItem_other _ _ _ _ (by simp)
    · intro _
      by_cases hr : rest = []
      · subst hr
        simp only [verifyEvents, List.map_nil, run, List.foldl_nil, config_attemptCount,
          List.length_singleton, Nat.cast_one]
        rw [getItem_setItem_same, hn]
        rfl
      · rw [h8 hr, hcast]

theorem loadPersistedState_empty (cfg : Config) (now : Int) :
    loadPersistedState cfg now [] = { state := initialState, localStorage := [] } := by
  simp [loadPersistedState, getItem, truthy, removeItem]

/-- The hook after a run of failed verifications whose last call reaches the
attempt limit: locked out for `lockoutDurationSeconds`, with the count and the
end of the lockout in the storage. -/
theorem run_failed_verifies_limit (env : Option String)
    (calls : List (Option String × Int)) (last : Option String × Int) (d : DoorLock)
    (hl : d.state.isLockedOut = false) (hpw : d.state.password = "")
    (hn : d.state.attemptCount = JSNum.num 0) (hlen : calls.length = 4)
    (hw : ∀ a ∈ calls, a.1.getD "" ≠ (DOOR_LOCK_CONFIG env).correctPassword)
    (hlast : last.1.getD "" ≠ (DOOR_LOCK_CONFIG env).correctPassword) :
    (run (DOOR_LOCK_CONFIG env) d (verifyEvents (calls ++ [last]))).state.isLockedOut = true
    ∧ (run (DOOR_LOCK_CONFIG env) d (verifyEvents (calls ++ [last]))).state.lockoutTimeRemaining
        = 30
    ∧ (run (DOOR_LOCK_CONFIG env) d (verifyEvents (calls ++ [last]))).state.attemptCount
        = JSNum.num 5
    ∧ (run (DOOR_LOCK_CONFIG env) d (verifyEvents (calls ++ [last]))).state.isUnlocked
        = d.state.isUnlocked
    ∧ getItem (run (DOOR_LOCK_CONFIG env) d (verifyEvents (calls ++ [last]))).localStorage
        "doorLock_lockoutUntil" = some (toString (last.2 + 30 * 1000))
    ∧ getItem (run (DOOR_LOCK_CONFIG env) d (verifyEvents (calls ++ [last]))).localStorage
        "doorLock_attemptCount" = some (toString (5 : Int)) := by
  obtain ⟨h1, h2, h3, h4, _, _, _, _⟩ :=
    run_failed_verifies_below env calls d 0 hl hpw hn (by rw [hlen]; decide) hw
  have hrun : run (DOOR_LOCK_CONFIG env) d (verifyEvents (calls ++ [last]))
      = verifyPassword (DOOR_LOCK_CONFIG env) last.2
          (run (DOOR_LOCK_CONFIG env) d (verifyEvents calls)) last.1 := by
    simp [verifyEvents, run_append, run_cons, run, step]
  have hn4 : (run (DOOR_LOCK_CONFIG env) d (verifyEvents calls)).state.attemptCount
      = JSNum.num 4 := by
    rw [h3, hlen]
    rfl
  have hmis : last.1.getD (run (DOOR_LOCK_CONFIG env) d (verifyEvents calls)).state.password
      ≠ (DOOR_LOCK_CONFIG env).correctPassword := by
    rw [h2]
    exact hlast
  have hb : JSNum.ge
      (JSNum.add (run (DOOR_LOCK_CONFIG env) d (verifyEvents calls)).state.attemptCount
        (JSNum.num 1))
      (JSNum.num (DOOR_LOCK_CONFIG env).maxAttempts) = true := by
    rw [hn4]
    rfl
  rw [hrun, verifyPassword_mismatch_limit _ last.2 _ last.1 h1 hmis hb, hn4]
  refine ⟨rfl, rfl, rfl, h4, ?_, ?_⟩
  · show getItem (setItem _ _ _) _ = _
    exact getItem_setItem_same _ _ _
  · show getItem (setItem (setItem _ _ _) _ _) _ = _
    rw [getItem_setItem_other _ _ _ _ (by simp)]
    exact getItem_setItem_same _ _ _

/-- C4: from the freshly constructed hook (empty storage), `maxAttempts`
consecutive `verifyPassword` calls whose compared values (the argument, or the
empty `password` when there is none) all differ from the configured PIN leave
`isLockedOut = true` and `lockoutTimeRemaining = lockoutDurationSeconds`
(30). -/
theorem max_failures_lock_out (env : Option String) (now : Int)
    (calls : List (Option String × Int))
    (hlen : (calls.length : Int) = (DOOR_LOCK_CONFIG env).maxAttempts)
    (hw : ∀ a ∈ calls, a.1.getD "" ≠ (DOOR_LOCK_CONFIG env).correctPassword) :
    (run (DOOR_LOCK_CONFIG env) (loadPersistedState (DOOR_LOCK_CONFIG env) now [])
        (verifyEvents calls)).state.isLockedOut = true
    ∧ (run (DOOR_LOCK_CONFIG env) (loadPersistedState (DOOR_LOCK_CONFIG env) now [])
        (verifyEvents calls)).state.lockoutTimeRemaining
        = (DOOR_LOCK_CONFIG env).lockoutDurationSeconds := by
  have hlen5 : calls.length = 5 := by
    simp only [config_maxAttempts] at hlen
    exact_mod_cast hlen
  have hne : calls ≠ [] := by
    intro h
    rw [h] at hlen5
    exact absurd hlen5 (by decide)
  have hsplit : calls = calls.dropLast ++ [calls.getLast hne] :=
    (List.dropLast_append_getLast hne).symm
  have hlen4 : calls.dropLast.length = 4 := by
    rw [List.length_dropLast, hlen5]
  have hw1 : ∀ a ∈ calls.dropLast, a.1.getD "" ≠ (DOOR_LOCK_CONFIG env).correctPassword :=
    fun a ha => hw a (List.mem_of_mem_dropLast ha)
  have hw2 : (calls.getLast hne).1.getD "" ≠ (DOOR_LOCK_CONFIG env).correctPassword :=
    hw _ (List.getLast_mem hne)
  rw [loadPersistedState_empty, hsplit]
  have h := run_failed_verifies_limit env calls.dropLast (calls.getLast hne)
    { state := initialState, localStorage := [] } rfl rfl rfl hlen4 hw1 hw2
  exact ⟨h.1, h.2.1⟩

/-- C4 at a concrete input: five wrong values against the default PIN. -/
theorem max_failures_lock_out_witness :
    (([(some "1234", 10), (some "0000", 20), (none, 30), (some "wrong", 40),
        (some "8766", 50)] : List (Option String × Int)).length : Int)
        = (DOOR_LOCK_CONFIG none).maxAttempts
    ∧ (run (DOOR_LOCK_CONFIG none) (loadPersistedState (DOOR_LOCK_CONFIG none) 0 [])
        (verifyEvents [(some "1234", 10), (some "0000", 20), (none, 30), (some "wrong", 40),
          (some "8766", 50)])).state.isLockedOut = true
    ∧ (run (DOOR_LOCK_CONFIG none) (loadPersistedState (DOOR_LOCK_CONFIG none) 0 [])
        (verifyEvents [(some "1234", 10), (some "0000", 20), (none, 30), (some "wrong", 40),
          (some "8766", 50)])).state.lockoutTimeRemaining = 30 :=
  ⟨rfl,
    (max_failures_lock_out none 0
      [(some "1234", 10), (some "0000", 20), (none, 30), (some "wrong", 40), (some "8766", 50)]
      rfl (by decide)).1,
    (max_failures_lock_out none 0
      [(some "1234", 10), (some "0000", 20), (none, 30), (some "wrong", 40), (some "8766", 50)]
      rfl (by decide)).2⟩

/-! ## Lockout -/

/-- C5: while `isLockedOut` holds, `verifyPassword` (with any argument, the
configured PIN included, at any time), `updatePassword` (with any string),
`clearPassword` and `handleKeyPress` (with any key) return the hook unchanged:
every state field and the whole storage are as before. -/
theorem locked_out_handlers_noop (env : Option String) (d : DoorLock)
    (hl : d.state.isLockedOut = true) :
    (∀ (now : Int) (p : Option String), verifyPassword (DOOR_LOCK_CONFIG env) now d p = d)
    ∧ verifyPassword (DOOR_LOCK_CONFIG env) 0 d (some (DOOR_LOCK_CONFIG env).correctPassword) = d
    ∧ (∀ value : String, updatePassword (DOOR_LOCK_CONFIG env) d value = d)
    ∧ clearPassword d = d
    ∧ (∀ (now : Int) (key : String), handleKeyPress (DOOR_LOCK_CONFIG env) now d key = d) := by
  refine ⟨?_, ?_, ?_, ?_, ?_⟩
  · intro now p
    simp [verifyPassword, hl]
  · simp [verifyPassword, hl]
  · intro value
    simp [updatePassword, hl]
  · simp [clearPassword, hl]
  · intro now key
    simp [handleKeyPress, hl]

/-- C5 at a concrete input: a locked-out hook is not opened by the PIN, and
ignores typed digits. -/
theorem locked_out_handlers_noop_witness :
    (DoorLock.mk { initialState with isLockedOut := true
                                     attemptCount := JSNum.num 5
                                     lockoutTimeRemaining := 30 }
        [("doorLock_attemptCount", "5"), ("doorLock_lockoutUntil", "30000")]).state.isLockedOut
      = true
    ∧ verifyPassword (DOOR_LOCK_CONFIG none) 0
        (DoorLock.mk { initialState with isLockedOut := true
                                         attemptCount := JSNum.num 5
                                         lockoutTimeRemaining := 30 }
          [("doorLock_attemptCount", "5"), ("doorLock_lockoutUntil", "30000")])
        (some "8765")
      = DoorLock.mk { initialState with isLockedOut := true
                                        attemptCount := JSNum.num 5
                                        lockoutTimeRemaining := 30 }
          [("doorLock_attemptCount", "5"), ("doorLock_lockoutUntil", "30000")]
    ∧ updatePassword (DOOR_LOCK_CONFIG none)
        (DoorLock.mk { initialState with isLockedOut := true
                                         attemptCount := JSNum.num 5
                                         lockoutTimeRemaining := 30 }
          [("doorLock_attemptCount", "5"), ("doorLock_lockoutUntil", "30000")])
        "12"
      = DoorLock.mk { initialState with isLockedOut := true
                                        attemptCount := JSNum.num 5
                                        lockoutTimeRemaining := 30 }
          [("doorLock_attemptCount", "5"), ("doorLock_lockoutUntil", "30000")] :=
  ⟨rfl,
    (locked_out_handlers_noop none
      (DoorLock.mk { initialState with isLockedOut := true
                                       attemptCount := JSNum.num 5
                                       lockoutTimeRemaining := 30 }
        [("doorLock_attemptCount", "5"), ("doorLock_lockoutUntil", "30000")]) rfl).1 0
      (some "8765"),
    (locked_out_handlers_noop none
      (DoorLock.mk { initialState with isLockedOut := true
                                       attemptCount := JSNum.num 5
                                       lockoutTimeRemaining := 30 }
        [("doorLock_attemptCount", "5"), ("doorLock_lockoutUntil", "30000")]) rfl).2.2.1 "12"⟩

/-! ## Countdown -/

theorem ticks_succ (cfg : Config) : ∀ (k : Nat) (d : DoorLock),
    ticks cfg (k + 1) d = countdownTick cfg (ticks cfg k d) := by
  intro k
  induction k with
  | zero => intro d; rfl
  | succ k ih =>
    intro d
    show ticks cfg (k + 1) (countdownTick cfg d) = _
    rw [ih]
    rfl

/-- Fewer ticks than remaining seconds only lower `lockoutTimeRemaining`. -/
theorem ticks_below (cfg : Config) : ∀ (k : Nat) (d : DoorLock),
    d.state.isLockedOut = true → (k : Int) < d.state.lockoutTimeRemaining →
    ticks cfg k d =
      { d with state :=
          { d.state with lockoutTimeRemaining := d.state.lockoutTimeRemaining - k } } := by
  intro k
  induction k with
  | zero =>
    intro d _ _
    simp [ticks]
  | succ k ih =>
    intro d hl hk
    have hk' : (k : Int) + 1 < d.state.lockoutTimeRemaining := by exact_mod_cast hk
    have h0 : ¬ d.state.lockoutTimeRemaining ≤ 0 := by
      have : (0 : Int) ≤ (k : Int) := Int.natCast_nonneg _
      omega
    have h1 : ¬ d.state.lockoutTimeRemaining ≤ 1 := by
      have : (0 : Int) ≤ (k : Int) := Int.natCast_nonneg _
      omega
    have htick : countdownTick cfg d =
        { d with state :=
            { d.state with lockoutTimeRemaining := d.state.lockoutTimeRemaining - 1 } } := by
      simp [countdownTick, hl, h0, h1]
    have hrec := ih
      { d with state :=
          { d.state with lockoutTimeRemaining := d.state.lockoutTimeRemaining - 1 } }
      hl (by show (k : Int) < d.state.lockoutTimeRemaining - 1; omega)
    have e : d.state.lockoutTimeRemaining - 1 - (k : Int)
        = d.state.lockoutTimeRemaining - ((k + 1 : Nat) : Int) := by
      push_cast
      omega
    show ticks cfg k (countdownTick cfg d) = _
    rw [htick, hrec]
    simp only [e]

/-- The tick that finds one second remaining ends the lockout. -/
theorem countdownTick_expire (cfg : Config) (d : DoorLock)
    (hl : d.state.isLockedOut = true) (hr : d.state.lockoutTimeRemaining = 1) :
    countdownTick cfg d =
      { state := { d.state with isLockedOut := false
                                attemptCount := JSNum.num 0
                                lockoutTimeRemaining := 0 }
        localStorage :=
          removeItem (removeItem d.localStorage cfg.storageKeys.lockoutUntil)
            cfg.storageKeys.attemptCount } := by
  simp [countdownTick, hl, hr]

/-- A lockout with `r` seconds remaining ends at the `r`-th tick. -/
theorem ticks_expire (cfg : Config) (r : Nat) (d : DoorLock)
    (hl : d.state.isLockedOut = true) (hr : d.state.lockoutTimeRemaining = r) (h1 : 1 ≤ r) :
    ticks cfg r d =
      { state := { d.state with isLockedOut := false
                                attemptCount := JSNum.num 0
                                lockoutTimeRemaining := 0 }
        localStorage :=
          removeItem (removeItem d.localStorage cfg.storageKeys.lockoutUntil)
            cfg.storageKeys.attemptCount } := by
  obtain ⟨k, rfl⟩ : ∃ k, r = k + 1 := ⟨r - 1, by omega⟩
  have hk : (k : Int) < d.state.lockoutTimeRemaining := by
    rw [hr]
    exact_mod_cast Nat.lt_succ_self k
  have hlast := countdownTick_expire cfg
    { d with state :=
        { d.state with lockoutTimeRemaining := d.state.lockoutTimeRemaining - k } }
    hl (by show d.state.lockoutTimeRemaining - (k : Int) = 1
           rw [hr]; push_cast; omega)
  rw [ticks_succ, ticks_below cfg k d hl hk, hlast]

/-- C6: from a locked-out state with `r >= 1` seconds remaining, `k < r` ticks
leave the hook locked out with `r - k` seconds remaining and `attemptCount`
untouched, and exactly `r` ticks give `isLockedOut = false`, `attemptCount = 0`,
0 seconds remaining and neither the lockout-until nor the attempt-count key in
the storage.  In particular a lockout started by `verifyPassword` shows 25
after 5 ticks, is still in force after any `k < 30` ticks and ends at the 30th
tick. -/
theorem countdown_runs_to_expiry (env : Option String) :
    (∀ (d : DoorLock) (r : Nat), d.state.isLockedOut = true →
      d.state.lockoutTimeRemaining = r → 1 ≤ r →
      (∀ k : Nat, k < r →
        (ticks (DOOR_LOCK_CONFIG env) k d).state.isLockedOut = true
        ∧ (ticks (DOOR_LOCK_CONFIG env) k d).state.lockoutTimeRemaining = (r : Int) - k
        ∧ (ticks (DOOR_LOCK_CONFIG env) k d).state.attemptCount = d.state.attemptCount)
      ∧ (ticks (DOOR_LOCK_CONFIG env) r d).state.isLockedOut = false
      ∧ (ticks (DOOR_LOCK_CONFIG env) r d).state.attemptCount = JSNum.num 0
      ∧ (ticks (DOOR_LOCK_CONFIG env) r d).state.lockoutTimeRemaining = 0
      ∧ getItem (ticks (DOOR_LOCK_CONFIG env) r d).localStorage
          (DOOR_LOCK_CONFIG env).storageKeys.lockoutUntil = none
      ∧ getItem (ticks (DOOR_LOCK_CONFIG env) r d).localStorage
          (DOOR_LOCK_CONFIG env).storageKeys.attemptCount = none)
    ∧ (∀ (d : DoorLock) (now : Int) (p : Option String),
      d.state.isLockedOut = false →
      (verifyPassword (DOOR_LOCK_CONFIG env) now d p).state.isLockedOut = true →
      (ticks (DOOR_LOCK_CONFIG env) 5
          (verifyPassword (DOOR_LOCK_CONFIG env) now d p)).state.lockoutTimeRemaining = 25
      ∧ (∀ k : Nat, k < 30 →
          (ticks (DOOR_LOCK_CONFIG env) k
            (verifyPassword (DOOR_LOCK_CONFIG env) now d p)).state.isLockedOut = true)
      ∧ (ticks (DOOR_LOCK_CONFIG env) 30
          (verifyPassword (DOOR_LOCK_CONFIG env) now d p)).state.isLockedOut = false
      ∧ (ticks (DOOR_LOCK_CONFIG env) 30
          (verifyPassword (DOOR_LOCK_CONFIG env) now d p)).state.attemptCount = JSNum.num 0) := by
  have general : ∀ (d : DoorLock) (r : Nat), d.state.isLockedOut = true →
      d.state.lockoutTimeRemaining = r → 1 ≤ r →
      (∀ k : Nat, k < r →
        (ticks (DOOR_LOCK_CONFIG env) k d).state.isLockedOut = true
        ∧ (ticks (DOOR_LOCK_CONFIG env) k d).state.lockoutTimeRemaining = (r : Int) - k
        ∧ (ticks (DOOR_LOCK_CONFIG env) k d).state.attemptCount = d.state.attemptCount)
      ∧ (ticks (DOOR_LOCK_CONFIG env) r d).state.isLockedOut = false
      ∧ (ticks (DOOR_LOCK_CONFIG env) r d).state.attemptCount = JSNum.num 0
      ∧ (ticks (DOOR_LOCK_CONFIG env) r d).state.lockoutTimeRemaining = 0
      ∧ getItem (ticks (DOOR_LOCK_CONFIG env) r d).localStorage
          (DOOR_LOCK_CONFIG env).storageKeys.lockoutUntil = none
      ∧ getItem (ticks (DOOR_LOCK_CONFIG env) r d).localStorage
          (DOOR_LOCK_CONFIG env).storageKeys.attemptCount = none := by
    intro d r hl hr h1
    refine ⟨?_, ?_⟩
    · intro k hk
      have hk' : (k : Int) < d.state.lockoutTimeRemaining := by
        rw [hr]
        exact_mod_cast hk
      rw [ticks_below _ k d hl hk']
      exact ⟨hl, by show d.state.lockoutTimeRemaining - (k : Int) = _; rw [hr], rfl⟩
    · rw [ticks_expire _ r d hl hr h1]
      refine ⟨rfl, rfl, rfl, ?_, ?_⟩
      · show getItem (removeItem (removeItem _ _) _) _ = none
        rw [getItem_removeItem_other _ _ _ (by simp)]
        exact getItem_removeItem_same _ _
      · exact getItem_removeItem_same _ _
  refine ⟨general, ?_⟩
  intro d now p hl hlock
  have hmis : p.getD d.state.password ≠ (DOOR_LOCK_CONFIG env).correctPassword := by
    intro heq
    rw [verifyPassword_match _ now d p hl heq] at hlock
    exact absurd (show d.state.isLockedOut = true from hlock) (by simp [hl])
  have hrem : (verifyPassword (DOOR_LOCK_CONFIG env) now d p).state.lockoutTimeRemaining
      = ((30 : Nat) : Int) :=
    ((verify_incorrect_lockout_aux env now d p hl hmis) hlock)
  obtain ⟨hbelow, hfalse, hzero, _, _, _⟩ := general _ 30 hlock hrem (by decide)
  refine ⟨?_, fun k hk => (hbelow k hk).1, hfalse, hzero⟩
  have := (hbelow 5 (by decide)).2.1
  rw [this]
  rfl

/-- C6 at a concrete input: a lockout with 3 seconds remaining shows 1 after 2
ticks and is over after 3. -/
theorem countdown_runs_to_expiry_witness :
    (DoorLock.mk { initialState with isLockedOut := true
                                     attemptCount := JSNum.num 5
                                     lockoutTimeRemaining := 3 }
        [("doorLock_attemptCount", "5"), ("doorLock_lockoutUntil", "3000")]).state.isLockedOut
      = true
    ∧ (ticks (DOOR_LOCK_CONFIG none) 2
        (DoorLock.mk { initialState with isLockedOut := true
                                         attemptCount := JSNum.num 5
                                         lockoutTimeRemaining := 3 }
          [("doorLock_attemptCount", "5"),
            ("doorLock_lockoutUntil", "3000")])).state.lockoutTimeRemaining
      = ((3 : Nat) : Int) - ((2 : Nat) : Int)
    ∧ (ticks (DOOR_LOCK_CONFIG none) 3
        (DoorLock.mk { initialState with isLockedOut := true
                                         attemptCount := JSNum.num 5
                                         lockoutTimeRemaining := 3 }
          [("doorLock_attemptCount", "5"),
            ("doorLock_lockoutUntil", "3000")])).state.isLockedOut = false :=
  ⟨rfl,
    (((countdown_runs_to_expiry none).1
      (DoorLock.mk { initialState with isLockedOut := true
                                       attemptCount := JSNum.num 5
                                       lockoutTimeRemaining := 3 }
        [("doorLock_attemptCount", "5"), ("doorLock_lockoutUntil", "3000")])
      3 rfl rfl (by decide)).1 2 (by decide)).2.1,
    ((countdown_runs_to_expiry none).1
      (DoorLock.mk { initialState with isLockedOut := true
                                       attemptCount := JSNum.num 5
                                       lockoutTimeRemaining := 3 }
        [("doorLock_attemptCount", "5"), ("doorLock_lockoutUntil", "3000")])
      3 rfl rfl (by decide)).2.1⟩

/-! ## Input -/

theorem allDigits_iff (value : String) :
    allDigits value = true ↔ ∀ c ∈ value.data, c.isDigit = true := by
  simp [allDigits, List.all_eq_true]

/-- C7: from a state that is not locked out, `updatePassword` replaces
`password` by the candidate verbatim when every character of the candidate is
a decimal digit and its length is at most `pinLength` (4), the empty string
included, and returns the hook unchanged otherwise (nothing is truncated); in
both cases no other state field and nothing in the storage changes. -/
theorem updatePassword_accepts_digits_only (env : Option String) (d : DoorLock)
    (value : String) (hl : d.state.isLockedOut = false) :
    ((∀ c ∈ value.data, c.isDigit = true) ∧ value.length ≤ 4 →
      updatePassword (DOOR_LOCK_CONFIG env) d value
        = { d with state := { d.state with password := value } })
    ∧ (¬ ((∀ c ∈ value.data, c.isDigit = true) ∧ value.length ≤ 4) →
      updatePassword (DOOR_LOCK_CONFIG env) d value = d)
    ∧ updatePassword (DOOR_LOCK_CONFIG env) d ""
        = { d with state := { d.state with password := "" } } := by
  refine ⟨?_, ?_, ?_⟩
  · rintro ⟨hd, hlen⟩
    have : allDigits value = true := (allDigits_iff value).2 hd
    simp [updatePassword, hl, this, hlen]
  · intro h
    by_cases hd : allDigits value = true
    · have hlen : ¬ value.length ≤ 4 := fun hlen => h ⟨(allDigits_iff value).1 hd, hlen⟩
      simp [updatePassword, hl, hd, hlen]
    · simp [updatePassword, hl, hd]
  · simp [updatePassword, hl, allDigits]

/-- C7 at a concrete input: "1234" is taken verbatim, "12345" and "12ab" are
dropped without truncation. -/
theorem updatePassword_accepts_digits_only_witness :
    (DoorLock.mk { initialState with password := "12" } []).state.isLockedOut = false
    ∧ updatePassword (DOOR_LOCK_CONFIG none)
        (DoorLock.mk { initialState with password := "12" } []) "1234"
      = DoorLock.mk { initialState with password := "1234" } []
    ∧ updatePassword (DOOR_LOCK_CONFIG none)
        (DoorLock.mk { initialState with password := "12" } []) "12345"
      = DoorLock.mk { initialState with password := "12" } []
    ∧ updatePassword (DOOR_LOCK_CONFIG none)
        (DoorLock.mk { initialState with password := "12" } []) "12ab"
      = DoorLock.mk { initialState with password := "12" } [] :=
  ⟨rfl,
    (updatePassword_accepts_digits_only none
      (DoorLock.mk { initialState with password := "12" } []) "1234" rfl).1
      ⟨by decide, by decide⟩,
    (updatePassword_accepts_digits_only none
      (DoorLock.mk { initialState with password := "12" } []) "12345" rfl).2.1
      (by decide),
    (updatePassword_accepts_digits_only none
      (DoorLock.mk { initialState with password := "12" } []) "12ab" rfl).2.1
      (by decide)⟩

/-! ## Unlocking -/

/-- C8: from a state with `isUnlocked = false`, `updatePassword`,
`clearPassword`, `lockDoor`, a `verifyPassword` whose compared value differs
from the PIN, a `handleKeyPress` that is not `Enter` on a full-length
`password` equal to the PIN, a countdown tick and the error-clear callback all
leave `isUnlocked = false`; an event sets `isUnlocked` exactly when the state
is not locked out and the event is a verification whose compared value equals
the PIN. -/
theorem only_matching_verify_unlocks (env : Option String) (d : DoorLock)
    (hu : d.state.isUnlocked = false) :
    (∀ value : String,
      (updatePassword (DOOR_LOCK_CONFIG env) d value).state.isUnlocked = false)
    ∧ (clearPassword d).state.isUnlocked = false
    ∧ (lockDoor (DOOR_LOCK_CONFIG env) d).state.isUnlocked = false
    ∧ (∀ (now : Int) (p : Option String),
        p.getD d.state.password ≠ (DOOR_LOCK_CONFIG env).correctPassword →
        (verifyPassword (DOOR_LOCK_CONFIG env) now d p).state.isUnlocked = false)
    ∧ (∀ (now : Int) (key : String),
        ¬ (key = "Enter" ∧ d.state.password.length = 4
            ∧ d.state.password = (DOOR_LOCK_CONFIG env).correctPassword) →
        (handleKeyPress (DOOR_LOCK_CONFIG env) now d key).state.isUnlocked = false)
    ∧ (countdownTick (DOOR_LOCK_CONFIG env) d).state.isUnlocked = false
    ∧ (clearErrorState d).state.isUnlocked = false
    ∧ (∀ e : Event,
        (step (DOOR_LOCK_CONFIG env) d e).state.isUnlocked = true ↔
          d.state.isLockedOut = false
          ∧ comparedValue (DOOR_LOCK_CONFIG env) d e
              = some (DOOR_LOCK_CONFIG env).correctPassword) := by
  have hupd : ∀ value : String,
      (updatePassword (DOOR_LOCK_CONFIG env) d value).state.isUnlocked = false := by
    intro value
    unfold updatePassword
    split
    · exact hu
    · split
      · exact hu
      · exact hu
  have hclr : (clearPassword d).state.isUnlocked = false := by
    unfold clearPassword
    split
    · exact hu
    · exact hu
  have hver : ∀ (now : Int) (p : Option String),
      p.getD d.state.password ≠ (DOOR_LOCK_CONFIG env).correctPassword →
      (verifyPassword (DOOR_LOCK_CONFIG env) now d p).state.isUnlocked = false := by
    intro now p hp
    cases hl : d.state.isLockedOut with
    | true => simp [verifyPassword, hl, hu]
    | false => rw [verifyPassword_mismatch_isUnlocked _ now d p hl hp, hu]
  have hkey : ∀ (now : Int) (key : String),
      ¬ (key = "Enter" ∧ d.state.password.length = 4
          ∧ d.state.password = (DOOR_LOCK_CONFIG env).correctPassword) →
      (handleKeyPress (DOOR_LOCK_CONFIG env) now d key).state.isUnlocked = false := by
    intro now key hk
    unfold handleKeyPress
    split
    · exact hu
    · split
      · rename_i hcond
        apply hver
        intro heq
        exact hk ⟨hcond.1, hcond.2, heq⟩
      · split
        · exact hclr
        · exact hu
  have htick : (countdownTick (DOOR_LOCK_CONFIG env) d).state.isUnlocked = false := by
    unfold countdownTick
    split
    · exact hu
    · split
      · exact hu
      · exact hu
  refine ⟨hupd, hclr, rfl, hver, hkey, htick, hu, ?_⟩
  intro e
  cases e with
  | updatePassword value =>
    simp [step, comparedValue, hupd value]
  | verifyPassword p now =>
    cases hl : d.state.isLockedOut with
    | true => simp [step, comparedValue, verifyPassword, hl, hu]
    | false =>
      by_cases hp : p.getD d.state.password = (DOOR_LOCK_CONFIG env).correctPassword
      · simp [step, comparedValue, verifyPassword_match _ now d p hl hp, hp]
      · simp [step, comparedValue, hver now p hp, hp]
  | lockDoor =>
    simp [step, comparedValue, lockDoor]
  | clearPassword =>
    simp [step, comparedValue, hclr]
  | handleKeyPress key now =>
    show (handleKeyPress (DOOR_LOCK_CONFIG env) now d key).state.isUnlocked = true ↔ _
    cases hl : d.state.isLockedOut with
    | true => simp [handleKeyPress, hl, hu]
    | false =>
      by_cases hc : key = "Enter" ∧ d.state.password.length = (DOOR_LOCK_CONFIG env).pinLength
      · have hcv : comparedValue (DOOR_LOCK_CONFIG env) d (Event.handleKeyPress key now)
            = some d.state.password := by
          simp only [comparedValue, if_pos hc]
        rw [hcv]
        by_cases hp : d.state.password = (DOOR_LOCK_CONFIG env).correctPassword
        · have hv : handleKeyPress (DOOR_LOCK_CONFIG env) now d key
              = verifyPassword (DOOR_LOCK_CONFIG env) now d none := by
            simp only [handleKeyPress, hl, if_pos hc]
            simp
          rw [hv, verifyPassword_match _ now d none hl hp]
          exact ⟨fun _ => ⟨rfl, congrArg some hp⟩, fun _ => rfl⟩
        · rw [hkey now key (fun h => hp h.2.2)]
          constructor
          · intro h
            exact absurd h (by decide)
          · intro h
            exact absurd (Option.some.inj h.2) hp
      · have hcv : comparedValue (DOOR_LOCK_CONFIG env) d (Event.handleKeyPress key now)
            = none := by
          simp only [comparedValue, if_neg hc]
        rw [hcv, hkey now key (fun h => hc ⟨h.1, h.2.1⟩)]
        constructor
        · intro h
          exact absurd h (by decide)
        · intro h
          exact absurd h.2 (by simp)
  | countdownTick =>
    simp [step, comparedValue, htick]
  | clearErrorState =>
    simp [step, comparedValue, clearErrorState, hu]

/-- C8 at a concrete input: on the freshly constructed hook a wrong value
leaves the door locked. -/
theorem only_matching_verify_unlocks_witness :
    (DoorLock.mk initialState []).state.isUnlocked = false
    ∧ (verifyPassword (DOOR_LOCK_CONFIG none) 0 (DoorLock.mk initialState [])
        (some "1234")).state.isUnlocked = false
    ∧ (lockDoor (DOOR_LOCK_CONFIG none) (DoorLock.mk initialState [])).state.isUnlocked = false :=
  ⟨rfl,
    (only_matching_verify_unlocks none (DoorLock.mk initialState []) rfl).2.2.2.1 0
      (some "1234") (by decide),
    (only_matching_verify_unlocks none (DoorLock.mk initialState []) rfl).2.2.1⟩

/-! ## Unlocked and locked out -/

/-- One event keeps "not both unlocked and locked out", unless it is a failed
verification handled while unlocked. -/
theorem step_exclusive (cfg : Config) (d : DoorLock) (e : Event)
    (hI : (d.state.isUnlocked && d.state.isLockedOut) = false)
    (ha : (d.state.isUnlocked && failsVerification cfg d e) = false) :
    ((step cfg d e).state.isUnlocked && (step cfg d e).state.isLockedOut) = false := by
  cases e with
  | updatePassword value =>
    simp only [step, updatePassword]
    split
    · exact hI
    · split <;> exact hI
  | verifyPassword p now =>
    simp only [step, verifyPassword]
    split
    · exact hI
    · rename_i hl
      split
      · simp [hl]
      · rename_i hne
        have hf : failsVerification cfg d (Event.verifyPassword p now) = true := by
          simpa [failsVerification, comparedValue] using hne
        rw [hf, Bool.and_true] at ha
        split <;> simp [ha]
  | lockDoor => simp [step, lockDoor]
  | clearPassword =>
    simp only [step, clearPassword]
    split <;> exact hI
  | handleKeyPress key now =>
    simp only [step, handleKeyPress]
    split
    · exact hI
    · rename_i hl
      split
      · rename_i hc
        simp only [verifyPassword]
        split
        · exact hI
        · split
          · simp [hl]
          · rename_i hne
            have hf : failsVerification cfg d (Event.handleKeyPress key now) = true := by
              simp only [failsVerification, comparedValue, if_pos hc]
              simpa using hne
            rw [hf, Bool.and_true] at ha
            split <;> simp [ha]
      · split
        · simp only [clearPassword]
          split <;> exact hI
        · exact hI
  | countdownTick =>
    simp only [step, countdownTick]
    split
    · exact hI
    · split
      · simp
      · exact hI
  | clearErrorState => exact hI

theorem run_exclusive (cfg : Config) : ∀ (es : List Event) (d : DoorLock),
    (d.state.isUnlocked && d.state.isLockedOut) = false →
    failsOnlyWhileLocked cfg d es = true →
    ((run cfg d es).state.isUnlocked && (run cfg d es).state.isLockedOut) = false := by
  intro es
  induction es with
  | nil => intro d hI _; exact hI
  | cons e rest ih =>
    intro d hI ha
    simp only [failsOnlyWhileLocked, Bool.and_eq_true, Bool.not_eq_true'] at ha
    rw [run_cons]
    exact ih _ (step_exclusive cfg d e hI ha.1) ha.2

/-- C9 as stated fails: on the freshly constructed hook, a matching
verification followed by five failed ones leaves `isUnlocked` and `isLockedOut`
both true (`verifyPassword` does not look at `isUnlocked`). -/
theorem unlocked_and_locked_out_counterexample :
    (run (DOOR_LOCK_CONFIG none) (loadPersistedState (DOOR_LOCK_CONFIG none) 0 [])
      [Event.verifyPassword (some "8765") 0, Event.verifyPassword (some "0000") 1,
        Event.verifyPassword (some "0000") 2, Event.verifyPassword (some "0000") 3,
        Event.verifyPassword (some "0000") 4,
        Event.verifyPassword (some "0000") 5]).state.isUnlocked = true
    ∧ (run (DOOR_LOCK_CONFIG none) (loadPersistedState (DOOR_LOCK_CONFIG none) 0 [])
      [Event.verifyPassword (some "8765") 0, Event.verifyPassword (some "0000") 1,
        Event.verifyPassword (some "0000") 2, Event.verifyPassword (some "0000") 3,
        Event.verifyPassword (some "0000") 4,
        Event.verifyPassword (some "0000") 5]).state.isLockedOut = true := by
  decide

/-- C9, amended: in every state reached from the freshly constructed hook
(empty storage) by a sequence of `updatePassword`, `verifyPassword`, `lockDoor`,
`clearPassword`, `handleKeyPress` calls, countdown ticks and error-clear
callbacks in which no verification with a value different from the PIN is
handled while `isUnlocked` is true, `isUnlocked` and `isLockedOut` are not both
true. -/
theorem unlocked_and_locked_out_exclusive (env : Option String) (now : Int)
    (es : List Event)
    (h : failsOnlyWhileLocked (DOOR_LOCK_CONFIG env)
      (loadPersistedState (DOOR_LOCK_CONFIG env) now []) es = true) :
    ¬ ((run (DOOR_LOCK_CONFIG env) (loadPersistedState (DOOR_LOCK_CONFIG env) now [])
          es).state.isUnlocked = true
      ∧ (run (DOOR_LOCK_CONFIG env) (loadPersistedState (DOOR_LOCK_CONFIG env) now [])
          es).state.isLockedOut = true) := by
  have h0 : ((loadPersistedState (DOOR_LOCK_CONFIG env) now []).state.isUnlocked
      && (loadPersistedState (DOOR_LOCK_CONFIG env) now []).state.isLockedOut) = false := by
    rw [loadPersistedState_empty]
    rfl
  have hfin := run_exclusive (DOOR_LOCK_CONFIG env) es _ h0 h
  intro hboth
  rw [hboth.1, hboth.2] at hfin
  exact absurd hfin (by decide)

/-- C9, amended, at a concrete input: a failed attempt, the right PIN, a
re-lock and five failed attempts while locked. -/
theorem unlocked_and_locked_out_exclusive_witness :
    failsOnlyWhileLocked (DOOR_LOCK_CONFIG none)
      (loadPersistedState (DOOR_LOCK_CONFIG none) 0 [])
      [Event.updatePassword "1234", Event.handleKeyPress "Enter" 1,
        Event.verifyPassword (some "8765") 2, Event.lockDoor,
        Event.verifyPassword (some "0000") 3, Event.verifyPassword (some "0000") 4,
        Event.verifyPassword (some "0000") 5, Event.verifyPassword none 6,
        Event.countdownTick] = true
    ∧ ¬ ((run (DOOR_LOCK_CONFIG none) (loadPersistedState (DOOR_LOCK_CONFIG none) 0 [])
          [Event.updatePassword "1234", Event.handleKeyPress "Enter" 1,
            Event.verifyPassword (some "8765") 2, Event.lockDoor,
            Event.verifyPassword (some "0000") 3, Event.verifyPassword (some "0000") 4,
            Event.verifyPassword (some "0000") 5, Event.verifyPassword none 6,
            Event.countdownTick]).state.isUnlocked = true
      ∧ (run (DOOR_LOCK_CONFIG none) (loadPersistedState (DOOR_LOCK_CONFIG none) 0 [])
          [Event.updatePassword "1234", Event.handleKeyPress "Enter" 1,
            Event.verifyPassword (some "8765") 2, Event.lockDoor,
            Event.verifyPassword (some "0000") 3, Event.verifyPassword (some "0000") 4,
            Event.verifyPassword (some "0000") 5, Event.verifyPassword none 6,
            Event.countdownTick]).state.isLockedOut = true) :=
  ⟨by decide,
    unlocked_and_locked_out_exclusive none 0
      [Event.updatePassword "1234", Event.handleKeyPress "Enter" 1,
        Event.verifyPassword (some "8765") 2, Event.lockDoor,
        Event.verifyPassword (some "0000") 3, Event.verifyPassword (some "0000") 4,
        Event.verifyPassword (some "0000") 5, Event.verifyPassword none 6,
        Event.countdownTick] (by decide)⟩

/-! ## Lockout and the attempt counter -/

theorem attemptsConsistent_iff (env : Option String) (s : LockState) :
    attemptsConsistent (DOOR_LOCK_CONFIG env) s = true ↔
      ∃ n : Int, s.attemptCount = JSNum.num n ∧ (s.isLockedOut = true → n = 5)
        ∧ (s.isLockedOut = false → n < 5) := by
  unfold attemptsConsistent
  cases hc : s.attemptCount with
  | nan => simp
  | num n =>
    cases hl : s.isLockedOut <;> simp

theorem verifyPassword_consistent (env : Option String) (now : Int) (d : DoorLock)
    (p : Option String)
    (h : attemptsConsistent (DOOR_LOCK_CONFIG env) d.state = true) :
    attemptsConsistent (DOOR_LOCK_CONFIG env)
      (verifyPassword (DOOR_LOCK_CONFIG env) now d p).state = true := by
  cases hl : d.state.isLockedOut with
  | true =>
    have : verifyPassword (DOOR_LOCK_CONFIG env) now d p = d := by simp [verifyPassword, hl]
    rw [this]; exact h
  | false =>
    obtain ⟨n, hn, _, hlt⟩ := (attemptsConsistent_iff env d.state).1 h
    have hn5 : n < 5 := hlt hl
    by_cases hp : p.getD d.state.password = (DOOR_LOCK_CONFIG env).correctPassword
    · rw [verifyPassword_match _ now d p hl hp]
      exact (attemptsConsistent_iff env _).2 ⟨0, rfl, by simp [hl], by simp⟩
    · cases hb : JSNum.ge (JSNum.add d.state.attemptCount (JSNum.num 1))
          (JSNum.num (DOOR_LOCK_CONFIG env).maxAttempts) with
      | false =>
        rw [verifyPassword_mismatch_below _ now d p hl hp hb]
        rw [hn] at hb
        have hlt' : n + 1 < 5 := by simpa [JSNum.add, JSNum.ge] using hb
        exact (attemptsConsistent_iff env _).2
          ⟨n + 1, by simp [hn, JSNum.add], by simp [hl], fun _ => hlt'⟩
      | true =>
        rw [verifyPassword_mismatch_limit _ now d p hl hp hb]
        rw [hn] at hb
        have hge : 5 ≤ n + 1 := by simpa [JSNum.add, JSNum.ge] using hb
        exact (attemptsConsistent_iff env _).2
          ⟨n + 1, by simp [hn, JSNum.add], fun _ => by omega, by simp⟩

theorem step_consistent (env : Option String) (d : DoorLock) (e : Event)
    (h : attemptsConsistent (DOOR_LOCK_CONFIG env) d.state = true) :
    attemptsConsistent (DOOR_LOCK_CONFIG env) (step (DOOR_LOCK_CONFIG env) d e).state = true := by
  cases e with
  | updatePassword value =>
    simp only [step, updatePassword]
    split
    · exact h
    · split
      · exact h
      · exact h
  | verifyPassword p now => exact verifyPassword_consistent env now d p h
  | lockDoor => exact h
  | clearPassword =>
    simp only [step, clearPassword]
    split
    · exact h
    · exact h
  | handleKeyPress key now =>
    simp only [step, handleKeyPress]
    split
    · exact h
    · split
      · exact verifyPassword_consistent env now d none h
      · split
        · simp only [clearPassword]
          split
          · exact h
          · exact h
        · exact h
  | countdownTick =>
    simp only [step, countdownTick]
    split
    · exact h
    · split
      · exact (attemptsConsistent_iff env _).2 ⟨0, rfl, by simp, by simp⟩
      · exact h
  | clearErrorState => exact h

theorem run_consistent (env : Option String) : ∀ (es : List Event) (d : DoorLock),
    attemptsConsistent (DOOR_LOCK_CONFIG env) d.state = true →
    attemptsConsistent (DOOR_LOCK_CONFIG env) (run (DOOR_LOCK_CONFIG env) d es).state = true := by
  intro es
  induction es with
  | nil => intro d h; exact h
  | cons e rest ih =>
    intro d h
    rw [run_cons]
    exact ih _ (step_consistent env d e h)

/-- C10 as stated fails: a storage holding only a lockout-until value in the
future is loaded as locked out with `attemptCount = 0`, not `maxAttempts`. -/
theorem locked_out_at_max_attempts_counterexample :
    (run (DOOR_LOCK_CONFIG none)
      (loadPersistedState (DOOR_LOCK_CONFIG none) 0 [("doorLock_lockoutUntil", "5000")])
      []).state.isLockedOut = true
    ∧ (run (DOOR_LOCK_CONFIG none)
      (loadPersistedState (DOOR_LOCK_CONFIG none) 0 [("doorLock_lockoutUntil", "5000")])
      []).state.attemptCount = JSNum.num 0
    ∧ (run (DOOR_LOCK_CONFIG none)
      (loadPersistedState (DOOR_LOCK_CONFIG none) 0 [("doorLock_lockoutUntil", "5000")])
      []).state.attemptCount ≠ JSNum.num (DOOR_LOCK_CONFIG none).maxAttempts := by
  decide

/-- C10, amended: when the state loaded from the persisted storage has an
integer `attemptCount` that equals `maxAttempts` if it is locked out and is
below `maxAttempts` if it is not (as the state loaded from the empty storage
has), then in every state reached from it by any sequence of handler calls,
countdown ticks and error-clear callbacks the same holds, and so
`isLockedOut = true` implies `attemptCount = maxAttempts`. -/
theorem locked_out_at_max_attempts (env : Option String) (now : Int) (ls : Store)
    (es : List Event)
    (h0 : attemptsConsistent (DOOR_LOCK_CONFIG env)
      (loadPersistedState (DOOR_LOCK_CONFIG env) now ls).state = true) :
    attemptsConsistent (DOOR_LOCK_CONFIG env)
        (loadPersistedState (DOOR_LOCK_CONFIG env) now []).state = true
    ∧ attemptsConsistent (DOOR_LOCK_CONFIG env)
        (run (DOOR_LOCK_CONFIG env) (loadPersistedState (DOOR_LOCK_CONFIG env) now ls)
          es).state = true
    ∧ ((run (DOOR_LOCK_CONFIG env) (loadPersistedState (DOOR_LOCK_CONFIG env) now ls)
          es).state.isLockedOut = true →
        (run (DOOR_LOCK_CONFIG env) (loadPersistedState (DOOR_LOCK_CONFIG env) now ls)
          es).state.attemptCount = JSNum.num (DOOR_LOCK_CONFIG env).maxAttempts) := by
  have hfin := run_consistent env es _ h0
  refine ⟨?_, hfin, ?_⟩
  · rw [loadPersistedState_empty]
    rfl
  · intro hl
    obtain ⟨n, hn, hmax, _⟩ := (attemptsConsistent_iff env _).1 hfin
    rw [hn, hmax hl]
    rfl

/-- C10, amended, at a concrete input: the empty storage, five failed
verifications and two ticks. -/
theorem locked_out_at_max_attempts_witness :
    attemptsConsistent (DOOR_LOCK_CONFIG none)
      (loadPersistedState (DOOR_LOCK_CONFIG none) 0 []).state = true
    ∧ (run (DOOR_LOCK_CONFIG none) (loadPersistedState (DOOR_LOCK_CONFIG none) 0 [])
        [Event.verifyPassword (some "0000") 1, Event.verifyPassword (some "0000") 2,
          Event.verifyPassword (some "0000") 3, Event.verifyPassword (some "0000") 4,
          Event.verifyPassword (some "0000") 5, Event.countdownTick,
          Event.countdownTick]).state.isLockedOut = true
    ∧ (run (DOOR_LOCK_CONFIG none) (loadPersistedState (DOOR_LOCK_CONFIG none) 0 [])
        [Event.verifyPassword (some "0000") 1, Event.verifyPassword (some "0000") 2,
          Event.verifyPassword (some "0000") 3, Event.verifyPassword (some "0000") 4,
          Event.verifyPassword (some "0000") 5, Event.countdownTick,
          Event.countdownTick]).state.attemptCount
        = JSNum.num (DOOR_LOCK_CONFIG none).maxAttempts :=
  ⟨by decide, by decide,
    (locked_out_at_max_attempts none 0 []
      [Event.verifyPassword (some "0000") 1, Event.verifyPassword (some "0000") 2,
        Event.verifyPassword (some "0000") 3, Event.verifyPassword (some "0000") 4,
        Event.verifyPassword (some "0000") 5, Event.countdownTick, Event.countdownTick]
      (by decide)).2.2 (by decide)⟩

/-! ## Loading the persisted state -/

theorem loadPersistedState_password (cfg : Config) (now : Int) (ls : Store) :
    (loadPersistedState cfg now ls).state.password = "" := by
  unfold loadPersistedState
  simp only
  split
  · split
    · split
      · split <;> split <;> rfl
      · split <;> split <;> rfl
    · split <;> split <;> rfl
  · split <;> split <;> rfl

theorem loadPersistedState_isUnlocked (cfg : Config) (now : Int) (ls : Store) :
    (loadPersistedState cfg now ls).state.isUnlocked
      = decide (getItem ls cfg.storageKeys.unlockState = some "true") := by
  unfold loadPersistedState
  simp only
  split
  · split
    · split
      · split <;> split <;> simp [initialState, *]
      · split <;> split <;> simp [initialState, *]
    · split <;> split <;> simp [initialState, *]
  · split <;> split <;> simp [initialState, *]

/-- Loading with a lockout-until value that parses to a time after `now`. -/
theorem loadPersistedState_future (cfg : Config) (now : Int) (ls : Store) (v : String)
    (u : Int) (hv : getItem ls cfg.storageKeys.lockoutUntil = some v)
    (hp : parseInt v = JSNum.num u) (hgt : now < u) :
    (loadPersistedState cfg now ls).state.isLockedOut = true
    ∧ (loadPersistedState cfg now ls).state.lockoutTimeRemaining = ceilDiv (u - now) 1000
    ∧ (loadPersistedState cfg now ls).localStorage = ls
    ∧ (loadPersistedState cfg now ls).state.attemptCount
        = (if truthy (getItem ls cfg.storageKeys.attemptCount) then
            parseInt ((getItem ls cfg.storageKeys.attemptCount).getD "")
          else JSNum.num 0) := by
  have hne : v ≠ "" := by
    intro h
    have hnan : parseInt "" = JSNum.nan := by decide
    rw [h, hnan] at hp
    exact JSNum.noConfusion hp
  have ht : truthy (getItem ls cfg.storageKeys.lockoutUntil) = true := by
    rw [hv]
    simp [truthy, hne]
  have hg : JSNum.gt (JSNum.num u) (JSNum.num now) = true := by
    simp [JSNum.gt, hgt]
  have hpv : parseInt ((getItem ls cfg.storageKeys.lockoutUntil).getD "") = JSNum.num u := by
    rw [hv]
    exact hp
  unfold loadPersistedState
  simp only [ht, hpv, hg, if_true]
  by_cases h1 : getItem ls cfg.storageKeys.unlockState = some "true" <;>
    by_cases h2 : truthy (getItem ls cfg.storageKeys.attemptCount) = true <;>
    simp [h1, h2, initialState]

/-- Loading with a lockout-until value that is not after `now`. -/
theorem loadPersistedState_past (cfg : Config) (now : Int) (ls : Store)
    (ht : truthy (getItem ls cfg.storageKeys.lockoutUntil) = true)
    (hg : JSNum.gt (parseInt ((getItem ls cfg.storageKeys.lockoutUntil).getD ""))
      (JSNum.num now) = false) :
    (loadPersistedState cfg now ls).state.isLockedOut = false
    ∧ (loadPersistedState cfg now ls).state.lockoutTimeRemaining = 0
    ∧ (loadPersistedState cfg now ls).localStorage
        = removeItem (removeItem ls cfg.storageKeys.lockoutUntil) cfg.storageKeys.attemptCount
    ∧ (loadPersistedState cfg now ls).state.attemptCount = JSNum.num 0 := by
  unfold loadPersistedState
  simp only [ht, hg, if_true]
  by_cases h1 : getItem ls cfg.storageKeys.unlockState = some "true" <;>
    by_cases h2 : truthy (getItem ls cfg.storageKeys.attemptCount) = true <;>
    simp [h1, h2, initialState]

/-- Loading without a usable lockout-until value. -/
theorem loadPersistedState_none (cfg : Config) (now : Int) (ls : Store)
    (ht : truthy (getItem ls cfg.storageKeys.lockoutUntil) = false) :
    (loadPersistedState cfg now ls).state.isLockedOut = false
    ∧ (loadPersistedState cfg now ls).state.lockoutTimeRemaining = 0
    ∧ (loadPersistedState cfg now ls).localStorage = ls
    ∧ (loadPersistedState cfg now ls).state.attemptCount
        = (if truthy (getItem ls cfg.storageKeys.attemptCount) then
            parseInt ((getItem ls cfg.storageKeys.attemptCount).getD "")
          else JSNum.num 0) := by
  unfold loadPersistedState
  simp only [ht]
  by_cases h1 : getItem ls cfg.storageKeys.unlockState = some "true" <;>
    by_cases h2 : truthy (getItem ls cfg.storageKeys.attemptCount) = true <;>
    simp [h1, h2, initialState]

/-! ## The pending input -/

/-- One event keeps `password` a string of at most `pinLength` digits. -/
theorem step_password (cfg : Config) (d : DoorLock) (e : Event)
    (h : allDigits d.state.password = true ∧ d.state.password.length ≤ cfg.pinLength) :
    allDigits (step cfg d e).state.password = true
      ∧ (step cfg d e).state.password.length ≤ cfg.pinLength := by
  have hempty : allDigits "" = true ∧ "".length ≤ cfg.pinLength := ⟨rfl, Nat.zero_le _⟩
  have hver : ∀ (now : Int) (p : Option String),
      allDigits (verifyPassword cfg now d p).state.password = true
        ∧ (verifyPassword cfg now d p).state.password.length ≤ cfg.pinLength := by
    intro now p
    simp only [verifyPassword]
    split
    · exact h
    · split
      · exact hempty
      · split <;> exact hempty
  have hclr : allDigits (clearPassword d).state.password = true
      ∧ (clearPassword d).state.password.length ≤ cfg.pinLength := by
    simp only [clearPassword]
    split
    · exact hempty
    · exact h
  cases e with
  | updatePassword value =>
    simp only [step, updatePassword]
    split
    · exact h
    · split
      · rename_i hc
        simp only [Bool.and_eq_true, decide_eq_true_eq] at hc
        exact hc
      · exact h
  | verifyPassword p now => exact hver now p
  | lockDoor => exact hempty
  | clearPassword => exact hclr
  | handleKeyPress key now =>
    simp only [step, handleKeyPress]
    split
    · exact h
    · split
      · exact hver now none
      · split
        · exact hclr
        · exact h
  | countdownTick =>
    simp only [step, countdownTick]
    split
    · exact h
    · split
      · exact h
      · exact h
  | clearErrorState => exact h

theorem run_password (cfg : Config) : ∀ (es : List Event) (d : DoorLock),
    allDigits d.state.password = true ∧ d.state.password.length ≤ cfg.pinLength →
    allDigits (run cfg d es).state.password = true
      ∧ (run cfg d es).state.password.length ≤ cfg.pinLength := by
  intro es
  induction es with
  | nil => intro d h; exact h
  | cons e rest ih =>
    intro d h
    rw [run_cons]
    exact ih _ (step_password cfg d e h)

/-- C11: in every state reached by loading any persisted storage at any time
and then handling any sequence of handler calls, countdown ticks and
error-clear callbacks, `password` has at most `pinLength` (4) characters and
every one of them is a decimal digit. -/
theorem password_digits_within_pinLength (env : Option String) (now : Int) (ls : Store)
    (es : List Event) :
    (run (DOOR_LOCK_CONFIG env) (loadPersistedState (DOOR_LOCK_CONFIG env) now ls)
        es).state.password.length ≤ 4
    ∧ ∀ c ∈ (run (DOOR_LOCK_CONFIG env) (loadPersistedState (DOOR_LOCK_CONFIG env) now ls)
        es).state.password.data, c.isDigit = true := by
  have h0 : allDigits (loadPersistedState (DOOR_LOCK_CONFIG env) now ls).state.password = true
      ∧ (loadPersistedState (DOOR_LOCK_CONFIG env) now ls).state.password.length
          ≤ (DOOR_LOCK_CONFIG env).pinLength := by
    rw [loadPersistedState_password]
    exact ⟨rfl, Nat.zero_le _⟩
  have h := run_password (DOOR_LOCK_CONFIG env) es _ h0
  exact ⟨h.2, (allDigits_iff _).1 h.1⟩

/-! ## Locking again and the persisted unlock flag -/

/-- C12: in every state, locked out or not, `lockDoor` sets `isUnlocked = false`,
`password = ""`, `showError = false` and `lastAttemptFailed = false` and removes
the unlock key from the storage, and leaves `attemptCount`, `isLockedOut`,
`lockoutTimeRemaining` and the attempt-count and lockout-until keys as they
were. -/
theorem lockDoor_effect (env : Option String) (d : DoorLock) :
    (lockDoor (DOOR_LOCK_CONFIG env) d).state.isUnlocked = false
    ∧ (lockDoor (DOOR_LOCK_CONFIG env) d).state.password = ""
    ∧ (lockDoor (DOOR_LOCK_CONFIG env) d).state.showError = false
    ∧ (lockDoor (DOOR_LOCK_CONFIG env) d).state.lastAttemptFailed = false
    ∧ getItem (lockDoor (DOOR_LOCK_CONFIG env) d).localStorage
        (DOOR_LOCK_CONFIG env).storageKeys.unlockState = none
    ∧ (lockDoor (DOOR_LOCK_CONFIG env) d).state.attemptCount = d.state.attemptCount
    ∧ (lockDoor (DOOR_LOCK_CONFIG env) d).state.isLockedOut = d.state.isLockedOut
    ∧ (lockDoor (DOOR_LOCK_CONFIG env) d).state.lockoutTimeRemaining
        = d.state.lockoutTimeRemaining
    ∧ getItem (lockDoor (DOOR_LOCK_CONFIG env) d).localStorage
        (DOOR_LOCK_CONFIG env).storageKeys.attemptCount
        = getItem d.localStorage (DOOR_LOCK_CONFIG env).storageKeys.attemptCount
    ∧ getItem (lockDoor (DOOR_LOCK_CONFIG env) d).localStorage
        (DOOR_LOCK_CONFIG env).storageKeys.lockoutUntil
        = getItem d.localStorage (DOOR_LOCK_CONFIG env).storageKeys.lockoutUntil
    ∧ (∀ key : String, key ≠ (DOOR_LOCK_CONFIG env).storageKeys.unlockState →
        getItem (lockDoor (DOOR_LOCK_CONFIG env) d).localStorage key
          = getItem d.localStorage key) := by
  refine ⟨rfl, rfl, rfl, rfl, ?_, rfl, rfl, rfl, ?_, ?_, ?_⟩
  · exact getItem_removeItem_same _ _
  · exact getItem_removeItem_other _ _ _ (by simp)
  · exact getItem_removeItem_other _ _ _ (by simp)
  · intro key hkey
    exact getItem_removeItem_other _ _ _ hkey

/-- C13: when a hook that is not locked out is unlocked by a matching
verification, a hook loaded from the storage it leaves behind (at any time) has
`isUnlocked = true`; and a hook loaded from the storage left behind by
`lockDoor`, called on the unlocked hook or in any other state, has
`isUnlocked = false`. -/
theorem unlock_flag_round_trip (env : Option String) (now : Int) (d : DoorLock)
    (p : Option String)
    (hl : d.state.isLockedOut = false)
    (hp : p.getD d.state.password = (DOOR_LOCK_CONFIG env).correctPassword) :
    (verifyPassword (DOOR_LOCK_CONFIG env) now d p).state.isUnlocked = true
    ∧ (∀ later : Int,
        (loadPersistedState (DOOR_LOCK_CONFIG env) later
          (verifyPassword (DOOR_LOCK_CONFIG env) now d p).localStorage).state.isUnlocked = true)
    ∧ (∀ later : Int,
        (loadPersistedState (DOOR_LOCK_CONFIG env) later
          (lockDoor (DOOR_LOCK_CONFIG env)
            (verifyPassword (DOOR_LOCK_CONFIG env) now d p)).localStorage).state.isUnlocked
          = false)
    ∧ (∀ (later : Int) (other : DoorLock),
        (loadPersistedState (DOOR_LOCK_CONFIG env) later
          (lockDoor (DOOR_LOCK_CONFIG env) other).localStorage).state.isUnlocked = false) := by
  have hlock : ∀ (later : Int) (other : DoorLock),
      (loadPersistedState (DOOR_LOCK_CONFIG env) later
        (lockDoor (DOOR_LOCK_CONFIG env) other).localStorage).state.isUnlocked = false := by
    intro later other
    rw [loadPersistedState_isUnlocked]
    have : getItem (lockDoor (DOOR_LOCK_CONFIG env) other).localStorage
        (DOOR_LOCK_CONFIG env).storageKeys.unlockState = none :=
      getItem_removeItem_same _ _
    rw [this]
    rfl
  refine ⟨?_, ?_, fun later => hlock later _, hlock⟩
  · rw [verifyPassword_match _ now d p hl hp]
  · intro later
    rw [loadPersistedState_isUnlocked, verifyPassword_match _ now d p hl hp]
    have : getItem
        (removeItem (setItem d.localStorage (DOOR_LOCK_CONFIG env).storageKeys.unlockState "true")
          (DOOR_LOCK_CONFIG env).storageKeys.attemptCount)
        (DOOR_LOCK_CONFIG env).storageKeys.unlockState = some "true" := by
      rw [getItem_removeItem_other _ _ _ (by simp)]
      exact getItem_setItem_same _ _ _
    simp only [this, decide_True]

/-- C13 at a concrete input: unlock the freshly constructed hook with the
default PIN, reload, lock, reload. -/
theorem unlock_flag_round_trip_witness :
    (DoorLock.mk initialState []).state.isLockedOut = false
    ∧ (some "8765").getD (DoorLock.mk initialState []).state.password
        = (DOOR_LOCK_CONFIG none).correctPassword
    ∧ (loadPersistedState (DOOR_LOCK_CONFIG none) 5000
        (verifyPassword (DOOR_LOCK_CONFIG none) 0 (DoorLock.mk initialState [])
          (some "8765")).localStorage).state.isUnlocked = true
    ∧ (loadPersistedState (DOOR_LOCK_CONFIG none) 9000
        (lockDoor (DOOR_LOCK_CONFIG none)
          (verifyPassword (DOOR_LOCK_CONFIG none) 0 (DoorLock.mk initialState [])
            (some "8765"))).localStorage).state.isUnlocked = false :=
  ⟨rfl, rfl,
    (unlock_flag_round_trip none 0 (DoorLock.mk initialState []) (some "8765") rfl rfl).2.1 5000,
    (unlock_flag_round_trip none 0 (DoorLock.mk initialState []) (some "8765") rfl rfl).2.2.1
      9000⟩

/-! ## Loading a lockout -/

theorem ceilDiv_thousand (a : Int) :
    1000 * (ceilDiv a 1000 - 1) < a ∧ a ≤ 1000 * ceilDiv a 1000 := by
  unfold ceilDiv
  omega

theorem ceilDiv_thousand_eq_ceil (a : Int) :
    ceilDiv a 1000 = ⌈(a : ℚ) / 1000⌉ := by
  symm
  rw [Int.ceil_eq_iff]
  obtain ⟨h1, h2⟩ := ceilDiv_thousand a
  constructor
  · rw [lt_div_iff₀ (by norm_num)]
    have : ((1000 * (ceilDiv a 1000 - 1) : Int) : ℚ) < (a : ℚ) := by exact_mod_cast h1
    push_cast at this
    linarith
  · rw [div_le_iff₀ (by norm_num)]
    have : ((a : Int) : ℚ) ≤ ((1000 * ceilDiv a 1000 : Int) : ℚ) := by exact_mod_cast h2
    push_cast at this
    linarith

/-- C15: when the persisted lockout-until value is present and parses to an
integer `u` greater than `now`, loading gives `isLockedOut = true` and
`lockoutTimeRemaining = ceil((u - now) / 1000)` (the least integer `r` with
`u - now <= 1000 * r`), and the storage is returned as it was, no key erased. -/
theorem load_active_lockout (env : Option String) (now : Int) (ls : Store) (v : String)
    (u : Int)
    (hv : getItem ls (DOOR_LOCK_CONFIG env).storageKeys.lockoutUntil = some v)
    (hp : parseInt v = JSNum.num u) (hgt : now < u) :
    (loadPersistedState (DOOR_LOCK_CONFIG env) now ls).state.isLockedOut = true
    ∧ (loadPersistedState (DOOR_LOCK_CONFIG env) now ls).state.lockoutTimeRemaining
        = ⌈((u - now : Int) : ℚ) / 1000⌉
    ∧ 1000 * ((loadPersistedState (DOOR_LOCK_CONFIG env) now ls).state.lockoutTimeRemaining - 1)
        < u - now
    ∧ u - now
        ≤ 1000 * (loadPersistedState (DOOR_LOCK_CONFIG env) now ls).state.lockoutTimeRemaining
    ∧ (loadPersistedState (DOOR_LOCK_CONFIG env) now ls).localStorage = ls := by
  obtain ⟨h1, h2, h3, _⟩ := loadPersistedState_future (DOOR_LOCK_CONFIG env) now ls v u hv hp hgt
  rw [h1, h2, h3]
  exact ⟨rfl, ceilDiv_thousand_eq_ceil _, (ceilDiv_thousand _).1, (ceilDiv_thousand _).2, rfl⟩

/-- C15 at a concrete input: a lockout until 30500 loaded at time 1000 has 30
seconds remaining. -/
theorem load_active_lockout_witness :
    getItem [("doorLock_attemptCount", "5"), ("doorLock_lockoutUntil", "30500")]
        (DOOR_LOCK_CONFIG none).storageKeys.lockoutUntil = some "30500"
    ∧ parseInt "30500" = JSNum.num 30500
    ∧ (1000 : Int) < 30500
    ∧ (loadPersistedState (DOOR_LOCK_CONFIG none) 1000
        [("doorLock_attemptCount", "5"), ("doorLock_lockoutUntil", "30500")]).state.isLockedOut
        = true
    ∧ (loadPersistedState (DOOR_LOCK_CONFIG none) 1000
        [("doorLock_attemptCount", "5"),
          ("doorLock_lockoutUntil", "30500")]).state.lockoutTimeRemaining = 30
    ∧ (loadPersistedState (DOOR_LOCK_CONFIG none) 1000
        [("doorLock_attemptCount", "5"), ("doorLock_lockoutUntil", "30500")]).localStorage
        = [("doorLock_attemptCount", "5"), ("doorLock_lockoutUntil", "30500")] :=
  ⟨rfl, by decide, by decide,
    (load_active_lockout none 1000
      [("doorLock_attemptCount", "5"), ("doorLock_lockoutUntil", "30500")] "30500" 30500
      rfl (by decide) (by decide)).1,
    by decide,
    (load_active_lockout none 1000
      [("doorLock_attemptCount", "5"), ("doorLock_lockoutUntil", "30500")] "30500" 30500
      rfl (by decide) (by decide)).2.2.2.2⟩

/-- C16: when the persisted lockout-until value is present and parses to an
integer `u <= now`, loading erases both the lockout-until and the attempt-count
key, gives `attemptCount = 0` whatever attempt count was persisted, and
`isLockedOut = false`. -/
theorem load_expired_lockout (env : Option String) (now : Int) (ls : Store) (v : String)
    (u : Int)
    (hv : getItem ls (DOOR_LOCK_CONFIG env).storageKeys.lockoutUntil = some v)
    (hp : parseInt v = JSNum.num u) (hle : u ≤ now) :
    getItem (loadPersistedState (DOOR_LOCK_CONFIG env) now ls).localStorage
        (DOOR_LOCK_CONFIG env).storageKeys.lockoutUntil = none
    ∧ getItem (loadPersistedState (DOOR_LOCK_CONFIG env) now ls).localStorage
        (DOOR_LOCK_CONFIG env).storageKeys.attemptCount = none
    ∧ (loadPersistedState (DOOR_LOCK_CONFIG env) now ls).state.attemptCount = JSNum.num 0
    ∧ (loadPersistedState (DOOR_LOCK_CONFIG env) now ls).state.isLockedOut = false := by
  have hne : v ≠ "" := by
    intro h
    have hnan : parseInt "" = JSNum.nan := by decide
    rw [h, hnan] at hp
    exact JSNum.noConfusion hp
  have ht : truthy (getItem ls (DOOR_LOCK_CONFIG env).storageKeys.lockoutUntil) = true := by
    rw [hv]
    simp [truthy, hne]
  have hg : JSNum.gt
      (parseInt ((getItem ls (DOOR_LOCK_CONFIG env).storageKeys.lockoutUntil).getD ""))
      (JSNum.num now) = false := by
    rw [hv]
    simp only [Option.getD_some, hp, JSNum.gt, decide_eq_false_iff_not, not_lt]
    exact hle
  obtain ⟨h1, _, h3, h4⟩ := loadPersistedState_past (DOOR_LOCK_CONFIG env) now ls ht hg
  rw [h1, h3, h4]
  refine ⟨?_, getItem_removeItem_same _ _, rfl, rfl⟩
  rw [getItem_removeItem_other _ _ _ (by simp)]
  exact getItem_removeItem_same _ _

/-- C16 at a concrete input: a lockout until 30500 loaded at time 30500. -/
theorem load_expired_lockout_witness :
    getItem [("doorLock_attemptCount", "5"), ("doorLock_lockoutUntil", "30500")]
        (DOOR_LOCK_CONFIG none).storageKeys.lockoutUntil = some "30500"
    ∧ parseInt "30500" = JSNum.num 30500
    ∧ (30500 : Int) ≤ 30500
    ∧ (loadPersistedState (DOOR_LOCK_CONFIG none) 30500
        [("doorLock_attemptCount", "5"), ("doorLock_lockoutUntil", "30500")]).state.attemptCount
        = JSNum.num 0
    ∧ (loadPersistedState (DOOR_LOCK_CONFIG none) 30500
        [("doorLock_attemptCount", "5"), ("doorLock_lockoutUntil", "30500")]).state.isLockedOut
        = false :=
  ⟨rfl, by decide, by decide,
    (load_expired_lockout none 30500
      [("doorLock_attemptCount", "5"), ("doorLock_lockoutUntil", "30500")] "30500" 30500
      rfl (by decide) (by decide)).2.2.1,
    (load_expired_lockout none 30500
      [("doorLock_attemptCount", "5"), ("doorLock_lockoutUntil", "30500")] "30500" 30500
      rfl (by decide) (by decide)).2.2.2⟩

/-! ## Loading the attempt count -/

/-- C17 fails on the code: the persisted attempt count "abc" is not treated as
absent, it is loaded as `NaN` (`parseInt("abc", 10)`, with no check of the
result).  From there every failed verification leaves the count `NaN` and
stores "NaN", and six of them in a row do not lock out.  The lockout-until
value next to it does fall back: "abc" there erases both keys and resets the
count to 0. -/
theorem load_corrupt_attemptCount_nan :
    parseInt "abc" = JSNum.nan
    ∧ (loadPersistedState (DOOR_LOCK_CONFIG none) 0
        [("doorLock_attemptCount", "abc")]).state.attemptCount = JSNum.nan
    ∧ (loadPersistedState (DOOR_LOCK_CONFIG none) 0
        [("doorLock_attemptCount", "abc")]).state.attemptCount ≠ JSNum.num 0
    ∧ (run (DOOR_LOCK_CONFIG none)
        (loadPersistedState (DOOR_LOCK_CONFIG none) 0 [("doorLock_attemptCount", "abc")])
        [Event.verifyPassword (some "0000") 1, Event.verifyPassword (some "0000") 2,
          Event.verifyPassword (some "0000") 3, Event.verifyPassword (some "0000") 4,
          Event.verifyPassword (some "0000") 5,
          Event.verifyPassword (some "0000") 6]).state.isLockedOut = false
    ∧ (run (DOOR_LOCK_CONFIG none)
        (loadPersistedState (DOOR_LOCK_CONFIG none) 0 [("doorLock_attemptCount", "abc")])
        [Event.verifyPassword (some "0000") 1, Event.verifyPassword (some "0000") 2,
          Event.verifyPassword (some "0000") 3, Event.verifyPassword (some "0000") 4,
          Event.verifyPassword (some "0000") 5,
          Event.verifyPassword (some "0000") 6]).state.attemptCount = JSNum.nan
    ∧ getItem (run (DOOR_LOCK_CONFIG none)
        (loadPersistedState (DOOR_LOCK_CONFIG none) 0 [("doorLock_attemptCount", "abc")])
        [Event.verifyPassword (some "0000") 1, Event.verifyPassword (some "0000") 2,
          Event.verifyPassword (some "0000") 3, Event.verifyPassword (some "0000") 4,
          Event.verifyPassword (some "0000") 5,
          Event.verifyPassword (some "0000") 6]).localStorage "doorLock_attemptCount"
        = some "NaN"
    ∧ (loadPersistedState (DOOR_LOCK_CONFIG none) 0
        [("doorLock_attemptCount", "3"), ("doorLock_lockoutUntil", "abc")]).state.attemptCount
        = JSNum.num 0
    ∧ (loadPersistedState (DOOR_LOCK_CONFIG none) 0
        [("doorLock_attemptCount", "3"), ("doorLock_lockoutUntil", "abc")]).localStorage = [] := by
  decide

/-- The attempt count the mount effect leaves: 0 when the lockout-until value is
present (non-empty) and not after `now`; otherwise 0 when the attempt-count key
is absent or empty, and `parseInt` of the persisted string when it is not. -/
theorem loadPersistedState_attemptCount (env : Option String) (now : Int) (ls : Store) :
    (loadPersistedState (DOOR_LOCK_CONFIG env) now ls).state.attemptCount
      = (if truthy (getItem ls (DOOR_LOCK_CONFIG env).storageKeys.lockoutUntil) = true
            ∧ JSNum.gt
                (parseInt ((getItem ls (DOOR_LOCK_CONFIG env).storageKeys.lockoutUntil).getD ""))
                (JSNum.num now) = false then
          JSNum.num 0
        else if truthy (getItem ls (DOOR_LOCK_CONFIG env).storageKeys.attemptCount) = true then
          parseInt ((getItem ls (DOOR_LOCK_CONFIG env).storageKeys.attemptCount).getD "")
        else JSNum.num 0) := by
  cases ht : truthy (getItem ls (DOOR_LOCK_CONFIG env).storageKeys.lockoutUntil) with
  | false =>
    rw [(loadPersistedState_none (DOOR_LOCK_CONFIG env) now ls ht).2.2.2]
    simp
  | true =>
    cases hg : JSNum.gt
        (parseInt ((getItem ls (DOOR_LOCK_CONFIG env).storageKeys.lockoutUntil).getD ""))
        (JSNum.num now) with
    | false =>
      rw [(loadPersistedState_past (DOOR_LOCK_CONFIG env) now ls ht hg).2.2.2]
      simp
    | true =>
      cases hv : getItem ls (DOOR_LOCK_CONFIG env).storageKeys.lockoutUntil with
      | none =>
        rw [hv] at ht
        exact absurd ht (by decide)
      | some v =>
        rw [hv] at hg
        cases hpv : parseInt v with
        | nan =>
          simp only [Option.getD_some, hpv, JSNum.gt] at hg
          exact absurd hg (by decide)
        | num u =>
          simp only [Option.getD_some, hpv, JSNum.gt, decide_eq_true_eq] at hg
          rw [(loadPersistedState_future (DOOR_LOCK_CONFIG env) now ls v u hv hpv hg).2.2.2]
          simp

/-! ## The default PIN -/

/-- C18 fails on the code: without an environment override the configured PIN
is "8765", so on the freshly constructed hook `updatePassword("8766")` followed
by `verifyPassword()` leaves the door locked and counts one failed attempt. -/
theorem default_pin_8766_rejected :
    (DOOR_LOCK_CONFIG none).correctPassword = "8765"
    ∧ (run (DOOR_LOCK_CONFIG none) (loadPersistedState (DOOR_LOCK_CONFIG none) 0 [])
        [Event.updatePassword "8766", Event.verifyPassword none 0]).state.isUnlocked = false
    ∧ (run (DOOR_LOCK_CONFIG none) (loadPersistedState (DOOR_LOCK_CONFIG none) 0 [])
        [Event.updatePassword "8766", Event.verifyPassword none 0]).state.attemptCount
        = JSNum.num 1
    ∧ (run (DOOR_LOCK_CONFIG none) (loadPersistedState (DOOR_LOCK_CONFIG none) 0 [])
        [Event.updatePassword "8765", Event.verifyPassword none 0]).state.isUnlocked = true := by
  decide

/-! ## Remaining attempts -/

theorem remainingAttempts_num (env : Option String) (s : LockState) (n : Int)
    (hn : s.attemptCount = JSNum.num n) :
    remainingAttempts (DOOR_LOCK_CONFIG env) s = JSNum.num (max 0 (5 - n)) := by
  simp [remainingAttempts, hn, JSNum.sub, JSNum.max]

/-- C19: for every `k < maxAttempts` (5), after `k` consecutive `verifyPassword`
calls with non-matching compared values on the freshly constructed hook,
`attemptCount = k`, `remainingAttempts = maxAttempts - k`, `isUnlocked = false`
and `isLockedOut = false`. -/
theorem failed_attempts_counted (env : Option String) (now : Int)
    (calls : List (Option String × Int))
    (hlen : (calls.length : Int) < (DOOR_LOCK_CONFIG env).maxAttempts)
    (hw : ∀ a ∈ calls, a.1.getD "" ≠ (DOOR_LOCK_CONFIG env).correctPassword) :
    (run (DOOR_LOCK_CONFIG env) (loadPersistedState (DOOR_LOCK_CONFIG env) now [])
        (verifyEvents calls)).state.attemptCount = JSNum.num calls.length
    ∧ remainingAttempts (DOOR_LOCK_CONFIG env)
        (run (DOOR_LOCK_CONFIG env) (loadPersistedState (DOOR_LOCK_CONFIG env) now [])
          (verifyEvents calls)).state
        = JSNum.num ((DOOR_LOCK_CONFIG env).maxAttempts - calls.length)
    ∧ (run (DOOR_LOCK_CONFIG env) (loadPersistedState (DOOR_LOCK_CONFIG env) now [])
        (verifyEvents calls)).state.isUnlocked = false
    ∧ (run (DOOR_LOCK_CONFIG env) (loadPersistedState (DOOR_LOCK_CONFIG env) now [])
        (verifyEvents calls)).state.isLockedOut = false := by
  simp only [config_maxAttempts] at hlen
  rw [loadPersistedState_empty]
  obtain ⟨h1, _, h3, h4, _, _, _, _⟩ :=
    run_failed_verifies_below env calls { state := initialState, localStorage := [] } 0
      rfl rfl rfl (by omega) hw
  have hcount : (run (DOOR_LOCK_CONFIG env) { state := initialState, localStorage := [] }
      (verifyEvents calls)).state.attemptCount = JSNum.num calls.length := by
    rw [h3, Int.zero_add]
  refine ⟨hcount, ?_, ?_, h1⟩
  · rw [remainingAttempts_num env _ _ hcount, config_maxAttempts]
    congr 1
    omega
  · rw [h4]
    rfl

/-- C19 at a concrete input: one failed attempt with "1234" against the default
PIN gives `attemptCount = 1` and `remainingAttempts = 4`. -/
theorem failed_attempts_counted_witness :
    (([(some "1234", 7)] : List (Option String × Int)).length : Int)
        < (DOOR_LOCK_CONFIG none).maxAttempts
    ∧ (run (DOOR_LOCK_CONFIG none) (loadPersistedState (DOOR_LOCK_CONFIG none) 0 [])
        (verifyEvents [(some "1234", 7)])).state.attemptCount = JSNum.num 1
    ∧ remainingAttempts (DOOR_LOCK_CONFIG none)
        (run (DOOR_LOCK_CONFIG none) (loadPersistedState (DOOR_LOCK_CONFIG none) 0 [])
          (verifyEvents [(some "1234", 7)])).state = JSNum.num 4
    ∧ (run (DOOR_LOCK_CONFIG none) (loadPersistedState (DOOR_LOCK_CONFIG none) 0 [])
        (verifyEvents [(some "1234", 7)])).state.isUnlocked = false :=
  ⟨by decide,
    (failed_attempts_counted none 0 [(some "1234", 7)] (by decide) (by decide)).1,
    (failed_attempts_counted none 0 [(some "1234", 7)] (by decide) (by decide)).2.1,
    (failed_attempts_counted none 0 [(some "1234", 7)] (by decide) (by decide)).2.2.1⟩

/-- C20: for an integer `attemptCount = n >= 0`, `remainingAttempts` is
`max(0, maxAttempts - n)`: it lies between 0 and `maxAttempts` (5) and is 0
whenever `n >= maxAttempts`. -/
theorem remainingAttempts_bounds (env : Option String) (s : LockState) (n : Int)
    (hn : s.attemptCount = JSNum.num n) (h0 : 0 ≤ n) :
    remainingAttempts (DOOR_LOCK_CONFIG env) s
        = JSNum.num (max 0 ((DOOR_LOCK_CONFIG env).maxAttempts - n))
    ∧ (∃ r : Int, remainingAttempts (DOOR_LOCK_CONFIG env) s = JSNum.num r
        ∧ 0 ≤ r ∧ r ≤ (DOOR_LOCK_CONFIG env).maxAttempts)
    ∧ ((DOOR_LOCK_CONFIG env).maxAttempts ≤ n →
        remainingAttempts (DOOR_LOCK_CONFIG env) s = JSNum.num 0) := by
  simp only [config_maxAttempts]
  rw [remainingAttempts_num env s n hn]
  refine ⟨rfl, ⟨max 0 (5 - n), rfl, le_max_left _ _, ?_⟩, ?_⟩
  · exact max_le (by decide) (by omega)
  · intro h
    congr 1
    exact max_eq_left (by omega)

/-- C20 at a concrete input: two failed attempts leave three, seven leave
none. -/
theorem remainingAttempts_bounds_witness :
    ({ initialState with attemptCount := JSNum.num 2 } : LockState).attemptCount = JSNum.num 2
    ∧ (0 : Int) ≤ 2
    ∧ remainingAttempts (DOOR_LOCK_CONFIG none) { initialState with attemptCount := JSNum.num 2 }
        = JSNum.num (max 0 ((DOOR_LOCK_CONFIG none).maxAttempts - 2))
    ∧ remainingAttempts (DOOR_LOCK_CONFIG none) { initialState with attemptCount := JSNum.num 7 }
        = JSNum.num 0 :=
  ⟨rfl, by decide,
    (remainingAttempts_bounds none { initialState with attemptCount := JSNum.num 2 } 2 rfl
      (by decide)).1,
    (remainingAttempts_bounds none { initialState with attemptCount := JSNum.num 7 } 7 rfl
      (by decide)).2.2 (by decide)⟩

/-! ## Reading back a written number -/

/-- What `parseInt` needs of a character of a decimal numeral. -/
theorem digitChar_facts (k : Nat) (hk : k < 10) :
    (Nat.digitChar k).isDigit = true ∧ isStrWhiteSpaceChar (Nat.digitChar k) = false
      ∧ Nat.digitChar k ≠ '-' ∧ Nat.digitChar k ≠ '+'
      ∧ (Nat.digitChar k).toNat - 48 = k := by
  interval_cases k <;> decide

theorem digitsValue_append_singleton (pre : List Char) (c : Char) :
    digitsValue (pre ++ [c]) = digitsValue pre * 10 + (c.toNat - 48) := by
  simp [digitsValue, List.foldl_append]

/-- The decimal numeral of `n`: a non-empty run of digit characters whose value
is `n`. -/
theorem toDigitsCore_numeral : ∀ (fuel n : Nat) (ds : List Char), n < fuel →
    ∃ pre : List Char, Nat.toDigitsCore 10 fuel n ds = pre ++ ds ∧ pre ≠ []
      ∧ (∀ c ∈ pre, c.isDigit = true ∧ isStrWhiteSpaceChar c = false ∧ c ≠ '-' ∧ c ≠ '+')
      ∧ digitsValue pre = n := by
  intro fuel
  induction fuel with
  | zero => intro n ds h; exact absurd h (Nat.not_lt_zero _)
  | succ fuel ih =>
    intro n ds hn
    have hd := digitChar_facts (n % 10) (Nat.mod_lt _ (by decide))
    rw [Nat.toDigitsCore]
    by_cases h0 : n / 10 = 0
    · simp only [h0, if_true]
      refine ⟨[Nat.digitChar (n % 10)], rfl, by simp, ?_, ?_⟩
      · intro c hc
        rw [List.mem_singleton] at hc
        rw [hc]
        exact ⟨hd.1, hd.2.1, hd.2.2.1, hd.2.2.2.1⟩
      · have : digitsValue [Nat.digitChar (n % 10)] = (Nat.digitChar (n % 10)).toNat - 48 := by
          simp [digitsValue]
        rw [this, hd.2.2.2.2]
        omega
    · simp only [h0, if_false]
      have hlt : n / 10 < fuel := by omega
      obtain ⟨pre, hpre, _, hall, hval⟩ := ih (n / 10) (Nat.digitChar (n % 10) :: ds) hlt
      refine ⟨pre ++ [Nat.digitChar (n % 10)], ?_, by simp, ?_, ?_⟩
      · rw [hpre]
        simp
      · intro c hc
        rw [List.mem_append, List.mem_singleton] at hc
        cases hc with
        | inl h => exact hall c h
        | inr h =>
          rw [h]
          exact ⟨hd.1, hd.2.1, hd.2.2.1, hd.2.2.2.1⟩
      · rw [digitsValue_append_singleton, hval, hd.2.2.2.2]
        omega

theorem toDigits_numeral (n : Nat) :
    Nat.toDigits 10 n ≠ []
      ∧ (∀ c ∈ Nat.toDigits 10 n,
          c.isDigit = true ∧ isStrWhiteSpaceChar c = false ∧ c ≠ '-' ∧ c ≠ '+')
      ∧ digitsValue (Nat.toDigits 10 n) = n := by
  obtain ⟨pre, hpre, hne, hall, hval⟩ := toDigitsCore_numeral (n + 1) n [] (Nat.lt_succ_self n)
  have : Nat.toDigits 10 n = pre := by
    rw [Nat.toDigits, hpre, List.append_nil]
  rw [this]
  exact ⟨hne, hall, hval⟩

theorem takeWhile_of_all (p : Char → Bool) : ∀ (l : List Char), (∀ c ∈ l, p c = true) →
    l.takeWhile p = l := by
  intro l
  induction l with
  | nil => intro _; rfl
  | cons a rest ih =>
    intro h
    rw [List.takeWhile_cons, h a (List.mem_cons_self _ _), if_pos rfl,
      ih (fun c hc => h c (List.mem_cons_of_mem _ hc))]

/-- `parseInt` of a numeral (a non-empty run of digits). -/
theorem parseInt_numeral (neg : Bool) (ds : List Char) (hne : ds ≠ [])
    (hall : ∀ c ∈ ds, c.isDigit = true ∧ isStrWhiteSpaceChar c = false ∧ c ≠ '-' ∧ c ≠ '+') :
    parseInt (String.mk (if neg then '-' :: ds else ds))
      = JSNum.num (if neg then -(digitsValue ds : Int) else (digitsValue ds : Int)) := by
  obtain ⟨a, rest, rfl⟩ := List.exists_cons_of_ne_nil hne
  have ha := hall a (List.mem_cons_self _ _)
  have htake : (a :: rest).takeWhile Char.isDigit = a :: rest :=
    takeWhile_of_all _ _ (fun c hc => (hall c hc).1)
  cases neg with
  | false =>
    have hdrop : (a :: rest).dropWhile isStrWhiteSpaceChar = a :: rest := by
      rw [List.dropWhile_cons, ha.2.1]
      rfl
    unfold parseInt
    simp only [Bool.false_eq_true, if_false, hdrop]
    have hm : (match a :: rest with
        | '-' :: r => (true, r)
        | '+' :: r => (false, r)
        | _ => (false, a :: rest)) = (false, a :: rest) := by
      split
      · rename_i r heq
        exact absurd (List.cons.inj heq).1 ha.2.2.1
      · rename_i r heq
        exact absurd (List.cons.inj heq).1 ha.2.2.2
      · rfl
    rw [hm]
    simp only [htake]
    simp
  | true =>
    have hdrop : ('-' :: a :: rest).dropWhile isStrWhiteSpaceChar = '-' :: a :: rest := by
      rw [List.dropWhile_cons]
      have : isStrWhiteSpaceChar '-' = false := by decide
      rw [this]
      rfl
    unfold parseInt
    simp only [if_true, hdrop, htake]
    simp

/-- Reading back a written integer: `parseInt(n.toString(), 10)` is `n`. -/
theorem parseInt_toString (n : Int) : parseInt (toString n) = JSNum.num n := by
  cases n with
  | ofNat m =>
    obtain ⟨hne, hall, hval⟩ := toDigits_numeral m
    have h := parseInt_numeral false (Nat.toDigits 10 m) hne hall
    simp only [Bool.false_eq_true, if_false, hval] at h
    exact h
  | negSucc m =>
    obtain ⟨hne, hall, hval⟩ := toDigits_numeral (m + 1)
    have h := parseInt_numeral true (Nat.toDigits 10 (m + 1)) hne hall
    simp only [if_true, hval] at h
    have hs : toString (Int.negSucc m) = String.mk ('-' :: Nat.toDigits 10 (m + 1)) := by
      show "-" ++ Nat.repr (m + 1) = _
      rfl
    rw [hs, h]
    rfl

theorem toString_int_ne_empty (n : Int) : toString n ≠ "" := by
  intro h
  have hp := parseInt_toString n
  have hnan : parseInt "" = JSNum.nan := by decide
  rw [h, hnan] at hp
  exact JSNum.noConfusion hp

theorem truthy_toString (n : Int) : truthy (some (toString n)) = true := by
  simp [truthy, toString_int_ne_empty]

/-- C14 as stated fails: five failed verifications, the last at time 10000,
lock out until 40000; a hook loaded from that storage at time 8000, which is
before 10000 + 30000, has 32 seconds remaining, more than 30. -/
theorem throttling_survives_restart_counterexample :
    (8000 : Int) < 10000 + 30000
    ∧ (loadPersistedState (DOOR_LOCK_CONFIG none) 8000
        (run (DOOR_LOCK_CONFIG none) (loadPersistedState (DOOR_LOCK_CONFIG none) 0 [])
          (verifyEvents [(some "0000", 10), (some "0000", 20), (some "0000", 30),
            (some "0000", 40), (some "0000", 10000)])).localStorage).state.isLockedOut = true
    ∧ (loadPersistedState (DOOR_LOCK_CONFIG none) 8000
        (run (DOOR_LOCK_CONFIG none) (loadPersistedState (DOOR_LOCK_CONFIG none) 0 [])
          (verifyEvents [(some "0000", 10), (some "0000", 20), (some "0000", 30),
            (some "0000", 40), (some "0000", 10000)])).localStorage).state.lockoutTimeRemaining
        = 32
    ∧ ¬ (loadPersistedState (DOOR_LOCK_CONFIG none) 8000
        (run (DOOR_LOCK_CONFIG none) (loadPersistedState (DOOR_LOCK_CONFIG none) 0 [])
          (verifyEvents [(some "0000", 10), (some "0000", 20), (some "0000", 30),
            (some "0000", 40), (some "0000", 10000)])).localStorage).state.lockoutTimeRemaining
        ≤ 30 := by
  decide

/-- C14, amended: for every `k` with `1 <= k <= maxAttempts`, after `k`
consecutive failed verifications on the freshly constructed hook (the last one
at time `t`), a hook loaded from the storage left behind at any time
`t2 < t + 30000` has `attemptCount = k` and is locked out exactly when
`k = maxAttempts`; in that case its remaining seconds are
`ceil((t + 30000 - t2) / 1000)`, which is at most 30 when the reload does not
precede the last verification (`t <= t2`). -/
theorem throttling_survives_restart (env : Option String) (now : Int)
    (calls : List (Option String × Int)) (last : Option String × Int) (t2 : Int)
    (hlen : ((calls ++ [last]).length : Int) ≤ (DOOR_LOCK_CONFIG env).maxAttempts)
    (hw : ∀ a ∈ calls ++ [last], a.1.getD "" ≠ (DOOR_LOCK_CONFIG env).correctPassword)
    (ht : t2 < last.2 + 30000) :
    (loadPersistedState (DOOR_LOCK_CONFIG env) t2
        (run (DOOR_LOCK_CONFIG env) (loadPersistedState (DOOR_LOCK_CONFIG env) now [])
          (verifyEvents (calls ++ [last]))).localStorage).state.attemptCount
        = JSNum.num (calls ++ [last]).length
    ∧ ((loadPersistedState (DOOR_LOCK_CONFIG env) t2
        (run (DOOR_LOCK_CONFIG env) (loadPersistedState (DOOR_LOCK_CONFIG env) now [])
          (verifyEvents (calls ++ [last]))).localStorage).state.isLockedOut = true
        ↔ ((calls ++ [last]).length : Int) = (DOOR_LOCK_CONFIG env).maxAttempts)
    ∧ (((calls ++ [last]).length : Int) = (DOOR_LOCK_CONFIG env).maxAttempts →
        (loadPersistedState (DOOR_LOCK_CONFIG env) t2
          (run (DOOR_LOCK_CONFIG env) (loadPersistedState (DOOR_LOCK_CONFIG env) now [])
            (verifyEvents (calls ++ [last]))).localStorage).state.lockoutTimeRemaining
          = ⌈((last.2 + 30000 - t2 : Int) : ℚ) / 1000⌉
        ∧ (last.2 ≤ t2 →
          (loadPersistedState (DOOR_LOCK_CONFIG env) t2
            (run (DOOR_LOCK_CONFIG env) (loadPersistedState (DOOR_LOCK_CONFIG env) now [])
              (verifyEvents (calls ++ [last]))).localStorage).state.lockoutTimeRemaining
            ≤ 30)) := by
  simp only [config_maxAttempts, List.length_append, List.length_singleton, Nat.cast_add,
    Nat.cast_one] at hlen ⊢
  rw [loadPersistedState_empty]
  have hw1 : ∀ a ∈ calls, a.1.getD "" ≠ (DOOR_LOCK_CONFIG env).correctPassword :=
    fun a ha => hw a (List.mem_append_left _ ha)
  have hw2 : last.1.getD "" ≠ (DOOR_LOCK_CONFIG env).correctPassword :=
    hw last (List.mem_append_right _ (List.mem_singleton_self _))
  by_cases h5 : (calls.length : Int) + 1 = 5
  · have hlen4 : calls.length = 4 := by omega
    obtain ⟨_, _, _, _, hlu, hac⟩ := run_failed_verifies_limit env calls last
      { state := initialState, localStorage := [] } rfl rfl rfl hlen4 hw1 hw2
    have hlu' : getItem
        (run (DOOR_LOCK_CONFIG env) { state := initialState, localStorage := [] }
          (verifyEvents (calls ++ [last]))).localStorage
        (DOOR_LOCK_CONFIG env).storageKeys.lockoutUntil
        = some (toString (last.2 + 30 * 1000)) := hlu
    have hfut := loadPersistedState_future (DOOR_LOCK_CONFIG env) t2 _ _ (last.2 + 30 * 1000)
      hlu' (parseInt_toString _) (by omega)
    obtain ⟨f1, f2, _, f4⟩ := hfut
    have hac' : getItem
        (run (DOOR_LOCK_CONFIG env) { state := initialState, localStorage := [] }
          (verifyEvents (calls ++ [last]))).localStorage
        (DOOR_LOCK_CONFIG env).storageKeys.attemptCount = some (toString (5 : Int)) := hac
    rw [hac', truthy_toString, if_pos rfl, Option.getD_some, parseInt_toString] at f4
    refine ⟨?_, ?_, ?_⟩
    · rw [f4, h5]
    · rw [f1]
      simp [h5]
    · intro _
      refine ⟨?_, ?_⟩
      · rw [f2, ceilDiv_thousand_eq_ceil]
        norm_num
      · intro hle
        rw [f2]
        unfold ceilDiv
        omega
  · have hlt : (0 : Int) + ((calls ++ [last]).length : Int) < 5 := by
      simp only [List.length_append, List.length_singleton, Nat.cast_add, Nat.cast_one]
      omega
    obtain ⟨_, _, _, _, _, hlu, _, hac⟩ := run_failed_verifies_below env (calls ++ [last])
      { state := initialState, localStorage := [] } 0 rfl rfl rfl hlt hw
    have hlu' : truthy (getItem
        (run (DOOR_LOCK_CONFIG env) { state := initialState, localStorage := [] }
          (verifyEvents (calls ++ [last]))).localStorage
        (DOOR_LOCK_CONFIG env).storageKeys.lockoutUntil) = false := by
      show truthy (getItem _ "doorLock_lockoutUntil") = false
      rw [hlu]
      rfl
    have hac' : getItem
        (run (DOOR_LOCK_CONFIG env) { state := initialState, localStorage := [] }
          (verifyEvents (calls ++ [last]))).localStorage
        (DOOR_LOCK_CONFIG env).storageKeys.attemptCount
        = some (toString ((0 : Int) + ((calls ++ [last]).length : Int))) :=
      hac (by simp)
    obtain ⟨n1, _, _, n4⟩ := loadPersistedState_none (DOOR_LOCK_CONFIG env) t2 _ hlu'
    rw [hac', truthy_toString, if_pos rfl, Option.getD_some, parseInt_toString] at n4
    refine ⟨?_, ?_, ?_⟩
    · rw [n4]
      simp
    · rw [n1]
      simp [h5]
    · intro h
      exact absurd h h5

/-- C14, amended, at a concrete input: five failed verifications, the last at
time 1000; a reload at time 6000 is locked out with 25 seconds remaining. -/
theorem throttling_survives_restart_witness :
    (6000 : Int) < ((some "0000", 1000) : Option String × Int).2 + 30000
    ∧ (loadPersistedState (DOOR_LOCK_CONFIG none) 6000
        (run (DOOR_LOCK_CONFIG none) (loadPersistedState (DOOR_LOCK_CONFIG none) 0 [])
          (verifyEvents ([(some "1234", 10), (none, 20), (some "1", 30), (some "9999", 40)]
            ++ [(some "0000", 1000)]))).localStorage).state.attemptCount = JSNum.num 5
    ∧ (loadPersistedState (DOOR_LOCK_CONFIG none) 6000
        (run (DOOR_LOCK_CONFIG none) (loadPersistedState (DOOR_LOCK_CONFIG none) 0 [])
          (verifyEvents ([(some "1234", 10), (none, 20), (some "1", 30), (some "9999", 40)]
            ++ [(some "0000", 1000)]))).localStorage).state.lockoutTimeRemaining ≤ 30
    ∧ (loadPersistedState (DOOR_LOCK_CONFIG none) 6000
        (run (DOOR_LOCK_CONFIG none) (loadPersistedState (DOOR_LOCK_CONFIG none) 0 [])
          (verifyEvents ([(some "1234", 10), (none, 20), (some "1", 30), (some "9999", 40)]
            ++ [(some "0000", 1000)]))).localStorage).state.lockoutTimeRemaining = 25 :=
  ⟨by decide,
    (throttling_survives_restart none 0
      [(some "1234", 10), (none, 20), (some "1", 30), (some "9999", 40)] (some "0000", 1000)
      6000 (by decide) (by decide) (by decide)).1,
    ((throttling_survives_restart none 0
      [(some "1234", 10), (none, 20), (some "1", 30), (some "9999", 40)] (some "0000", 1000)
      6000 (by decide) (by decide) (by decide)).2.2 rfl).2 (by decide),
    by decide⟩

/-! ## Keys -/

/-- C21: when not locked out, `handleKeyPress` with key "Enter" is exactly
`verifyPassword()` (no argument: the current `password` is compared) when
`password.length` equals `pinLength` (4), and returns the hook unchanged, every
state field and the whole storage, when `password` is shorter (or of any other
length); a key other than "Enter" and "Escape" changes nothing. -/
theorem handleKeyPress_enter (env : Option String) (now : Int) (d : DoorLock)
    (hl : d.state.isLockedOut = false) :
    (d.state.password.length = 4 →
      handleKeyPress (DOOR_LOCK_CONFIG env) now d "Enter"
        = verifyPassword (DOOR_LOCK_CONFIG env) now d none)
    ∧ (d.state.password.length < 4 →
      handleKeyPress (DOOR_LOCK_CONFIG env) now d "Enter" = d)
    ∧ (d.state.password.length ≠ 4 →
      handleKeyPress (DOOR_LOCK_CONFIG env) now d "Enter" = d)
    ∧ (∀ key : String, key ≠ "Enter" → key ≠ "Escape" →
      handleKeyPress (DOOR_LOCK_CONFIG env) now d key = d) := by
  have hne : ∀ (h : d.state.password.length ≠ 4),
      handleKeyPress (DOOR_LOCK_CONFIG env) now d "Enter" = d := by
    intro h
    simp [handleKeyPress, hl, h]
  refine ⟨?_, ?_, hne, ?_⟩
  · intro h
    simp [handleKeyPress, hl, h]
  · intro h
    exact hne (by omega)
  · intro key h1 h2
    simp [handleKeyPress, hl, h1, h2]

/-- C21 at a concrete input: Enter on "8765" unlocks like `verifyPassword()`,
Enter on "87" does nothing. -/
theorem handleKeyPress_enter_witness :
    (DoorLock.mk { initialState with password := "8765" } []).state.isLockedOut = false
    ∧ (DoorLock.mk { initialState with password := "8765" } []).state.password.length = 4
    ∧ handleKeyPress (DOOR_LOCK_CONFIG none) 0
        (DoorLock.mk { initialState with password := "8765" } []) "Enter"
      = verifyPassword (DOOR_LOCK_CONFIG none) 0
        (DoorLock.mk { initialState with password := "8765" } []) none
    ∧ handleKeyPress (DOOR_LOCK_CONFIG none) 0
        (DoorLock.mk { initialState with password := "87" } []) "Enter"
      = DoorLock.mk { initialState with password := "87" } [] :=
  ⟨rfl, by decide,
    (handleKeyPress_enter none 0 (DoorLock.mk { initialState with password := "8765" } [])
      rfl).1 (by decide),
    (handleKeyPress_enter none 0 (DoorLock.mk { initialState with password := "87" } [])
      rfl).2.1 (by decide)⟩

/-- C22: when not locked out, `clearPassword`, and `handleKeyPress` with key
"Escape", which calls it, set `password` to "" whatever it was and leave every
other state field and the whole storage unchanged. -/
theorem clearPassword_effect (env : Option String) (now : Int) (d : DoorLock)
    (hl : d.state.isLockedOut = false) :
    clearPassword d = { d with state := { d.state with password := "" } }
    ∧ handleKeyPress (DOOR_LOCK_CONFIG env) now d "Escape" = clearPassword d
    ∧ handleKeyPress (DOOR_LOCK_CONFIG env) now d "Escape"
        = { d with state := { d.state with password := "" } } := by
  have h1 : clearPassword d = { d with state := { d.state with password := "" } } := by
    simp [clearPassword, hl]
  have h2 : handleKeyPress (DOOR_LOCK_CONFIG env) now d "Escape" = clearPassword d := by
    simp [handleKeyPress, hl]
  exact ⟨h1, h2, h2.trans h1⟩

/-- C22 at a concrete input: three typed digits, one failed attempt on record. -/
theorem clearPassword_effect_witness :
    (DoorLock.mk { initialState with password := "123", attemptCount := JSNum.num 1 }
        [("doorLock_attemptCount", "1")]).state.isLockedOut = false
    ∧ clearPassword
        (DoorLock.mk { initialState with password := "123", attemptCount := JSNum.num 1 }
          [("doorLock_attemptCount", "1")])
      = DoorLock.mk { initialState with password := "", attemptCount := JSNum.num 1 }
          [("doorLock_attemptCount", "1")]
    ∧ handleKeyPress (DOOR_LOCK_CONFIG none) 0
        (DoorLock.mk { initialState with password := "123", attemptCount := JSNum.num 1 }
          [("doorLock_attemptCount", "1")]) "Escape"
      = DoorLock.mk { initialState with password := "", attemptCount := JSNum.num 1 }
          [("doorLock_attemptCount", "1")] :=
  ⟨rfl,
    (clearPassword_effect none 0
      (DoorLock.mk { initialState with password := "123", attemptCount := JSNum.num 1 }
        [("doorLock_attemptCount", "1")]) rfl).1,
    (clearPassword_effect none 0
      (DoorLock.mk { initialState with password := "123", attemptCount := JSNum.num 1 }
        [("doorLock_attemptCount", "1")]) rfl).2.2⟩

/-! ## Idempotence -/

theorem removeItem_removeItem (ls : Store) (key : String) :
    removeItem (removeItem ls key) key = removeItem ls key := by
  simp [removeItem, List.filter_filter]

/-- C23: `lockDoor` is idempotent: in every state and with every storage,
calling it twice in a row gives the same state and the same storage as calling
it once. -/
theorem lockDoor_idempotent (env : Option String) (d : DoorLock) :
    lockDoor (DOOR_LOCK_CONFIG env) (lockDoor (DOOR_LOCK_CONFIG env) d)
      = lockDoor (DOOR_LOCK_CONFIG env) d := by
  simp [lockDoor, removeItem_removeItem]

/-- C24: the error-clear callback, fired in any state, sets `showError = false`
and `lastAttemptFailed = false` and leaves every other state field and the
storage unchanged; firing it twice gives the same result as firing it once. -/
theorem clearErrorState_effect (d : DoorLock) :
    clearErrorState d
      = { d with state := { d.state with showError := false, lastAttemptFailed := false } }
    ∧ (clearErrorState d).state.showError = false
    ∧ (clearErrorState d).state.lastAttemptFailed = false
    ∧ (clearErrorState d).state.isUnlocked = d.state.isUnlocked
    ∧ (clearErrorState d).state.password = d.state.password
    ∧ (clearErrorState d).state.attemptCount = d.state.attemptCount
    ∧ (clearErrorState d).state.isLockedOut = d.state.isLockedOut
    ∧ (clearErrorState d).state.lockoutTimeRemaining = d.state.lockoutTimeRemaining
    ∧ (clearErrorState d).localStorage = d.localStorage
    ∧ clearErrorState (clearErrorState d) = clearErrorState d :=
  ⟨rfl, rfl, rfl, rfl, rfl, rfl, rfl, rfl, rfl, rfl⟩

/-! ## Invariants of every run -/

/-- The three ways the mount effect can go, by the persisted lockout-until
value: unusable, not after `now`, or after `now`. -/
theorem loadPersistedState_trichotomy (cfg : Config) (now : Int) (ls : Store) :
    truthy (getItem ls cfg.storageKeys.lockoutUntil) = false
    ∨ (truthy (getItem ls cfg.storageKeys.lockoutUntil) = true
        ∧ JSNum.gt (parseInt ((getItem ls cfg.storageKeys.lockoutUntil).getD ""))
            (JSNum.num now) = false)
    ∨ ∃ (v : String) (u : Int), getItem ls cfg.storageKeys.lockoutUntil = some v
        ∧ parseInt v = JSNum.num u ∧ now < u := by
  cases ht : truthy (getItem ls cfg.storageKeys.lockoutUntil) with
  | false => exact Or.inl rfl
  | true =>
    cases hg : JSNum.gt (parseInt ((getItem ls cfg.storageKeys.lockoutUntil).getD ""))
        (JSNum.num now) with
    | false => exact Or.inr (Or.inl ⟨rfl, rfl⟩)
    | true =>
      cases hv : getItem ls cfg.storageKeys.lockoutUntil with
      | none =>
        rw [hv] at ht
        exact absurd ht (by decide)
      | some v =>
        rw [hv] at hg
        cases hpv : parseInt v with
        | nan =>
          simp only [Option.getD_some, hpv, JSNum.gt] at hg
          exact absurd hg (by decide)
        | num u =>
          simp only [Option.getD_some, hpv, JSNum.gt, decide_eq_true_eq] at hg
          exact Or.inr (Or.inr ⟨v, u, rfl, hpv, hg⟩)

/-- A hook loaded as locked out has at least one second remaining. -/
theorem loadPersistedState_remaining (cfg : Config) (now : Int) (ls : Store)
    (hl : (loadPersistedState cfg now ls).state.isLockedOut = true) :
    1 ≤ (loadPersistedState cfg now ls).state.lockoutTimeRemaining := by
  rcases loadPersistedState_trichotomy cfg now ls with ht | ⟨ht, hg⟩ | ⟨v, u, hv, hp, hgt⟩
  · rw [(loadPersistedState_none cfg now ls ht).1] at hl
    exact absurd hl (by decide)
  · rw [(loadPersistedState_past cfg now ls ht hg).1] at hl
    exact absurd hl (by decide)
  · rw [(loadPersistedState_future cfg now ls v u hv hp hgt).2.1]
    have := (ceilDiv_thousand (u - now)).2
    omega

/-- One event keeps "locked out only with at least one second remaining". -/
theorem step_remaining (env : Option String) (d : DoorLock) (e : Event)
    (h : d.state.isLockedOut = true → 1 ≤ d.state.lockoutTimeRemaining) :
    (step (DOOR_LOCK_CONFIG env) d e).state.isLockedOut = true →
      1 ≤ (step (DOOR_LOCK_CONFIG env) d e).state.lockoutTimeRemaining := by
  have hver : ∀ (now : Int) (p : Option String),
      (verifyPassword (DOOR_LOCK_CONFIG env) now d p).state.isLockedOut = true →
        1 ≤ (verifyPassword (DOOR_LOCK_CONFIG env) now d p).state.lockoutTimeRemaining := by
    intro now p
    simp only [verifyPassword]
    split
    · exact h
    · split
      · exact h
      · split
        · intro _
          show (1 : Int) ≤ 30
          decide
        · exact h
  have hclr : (clearPassword d).state.isLockedOut = true →
      1 ≤ (clearPassword d).state.lockoutTimeRemaining := by
    simp only [clearPassword]
    split
    · exact h
    · exact h
  cases e with
  | updatePassword value =>
    simp only [step, updatePassword]
    split
    · exact h
    · split
      · exact h
      · exact h
  | verifyPassword p now => exact hver now p
  | lockDoor => exact h
  | clearPassword => exact hclr
  | handleKeyPress key now =>
    simp only [step, handleKeyPress]
    split
    · exact h
    · split
      · exact hver now none
      · split
        · exact hclr
        · exact h
  | countdownTick =>
    simp only [step, countdownTick]
    split
    · exact h
    · split
      · intro hf
        exact absurd (show false = true from hf) (by decide)
      · rename_i h1
        intro _
        show 1 ≤ d.state.lockoutTimeRemaining - 1
        omega
  | clearErrorState => exact h

theorem run_remaining (env : Option String) : ∀ (es : List Event) (d : DoorLock),
    (d.state.isLockedOut = true → 1 ≤ d.state.lockoutTimeRemaining) →
    (run (DOOR_LOCK_CONFIG env) d es).state.isLockedOut = true →
      1 ≤ (run (DOOR_LOCK_CONFIG env) d es).state.lockoutTimeRemaining := by
  intro es
  induction es with
  | nil => intro d h; exact h
  | cons e rest ih =>
    intro d h
    rw [run_cons]
    exact ih _ (step_remaining env d e h)

/-- C25: in every state reached by loading any persisted storage at any
integer time and then handling any sequence of handler calls, countdown ticks
and error-clear callbacks, `isLockedOut = true` implies
`lockoutTimeRemaining >= 1`: the guard of the countdown effect does not skip the
interval, and the lockout is over after `lockoutTimeRemaining` ticks. -/
theorem lockout_has_time_remaining (env : Option String) (now : Int) (ls : Store)
    (es : List Event)
    (hl : (run (DOOR_LOCK_CONFIG env) (loadPersistedState (DOOR_LOCK_CONFIG env) now ls)
      es).state.isLockedOut = true) :
    1 ≤ (run (DOOR_LOCK_CONFIG env) (loadPersistedState (DOOR_LOCK_CONFIG env) now ls)
        es).state.lockoutTimeRemaining
    ∧ (!(run (DOOR_LOCK_CONFIG env) (loadPersistedState (DOOR_LOCK_CONFIG env) now ls)
          es).state.isLockedOut
        || decide ((run (DOOR_LOCK_CONFIG env)
          (loadPersistedState (DOOR_LOCK_CONFIG env) now ls)
          es).state.lockoutTimeRemaining ≤ 0)) = false
    ∧ (ticks (DOOR_LOCK_CONFIG env)
        (run (DOOR_LOCK_CONFIG env) (loadPersistedState (DOOR_LOCK_CONFIG env) now ls)
          es).state.lockoutTimeRemaining.toNat
        (run (DOOR_LOCK_CONFIG env) (loadPersistedState (DOOR_LOCK_CONFIG env) now ls)
          es)).state.isLockedOut = false := by
  have h1 := run_remaining env es _
    (loadPersistedState_remaining (DOOR_LOCK_CONFIG env) now ls) hl
  refine ⟨h1, ?_, ?_⟩
  · rw [hl]
    simp only [Bool.not_true, Bool.false_or, decide_eq_false_iff_not, not_le]
    omega
  · rw [ticks_expire (DOOR_LOCK_CONFIG env) _ _ hl (by omega) (by omega)]

/-- The mount effect does not touch the unlock key. -/
theorem loadPersistedState_unlockKey (env : Option String) (now : Int) (ls : Store) :
    getItem (loadPersistedState (DOOR_LOCK_CONFIG env) now ls).localStorage
        (DOOR_LOCK_CONFIG env).storageKeys.unlockState
      = getItem ls (DOOR_LOCK_CONFIG env).storageKeys.unlockState := by
  rcases loadPersistedState_trichotomy (DOOR_LOCK_CONFIG env) now ls with
    ht | ⟨ht, hg⟩ | ⟨v, u, hv, hp, hgt⟩
  · rw [(loadPersistedState_none (DOOR_LOCK_CONFIG env) now ls ht).2.2.1]
  · rw [(loadPersistedState_past (DOOR_LOCK_CONFIG env) now ls ht hg).2.2.1,
      getItem_removeItem_other _ _ _ (by simp), getItem_removeItem_other _ _ _ (by simp)]
  · rw [(loadPersistedState_future (DOOR_LOCK_CONFIG env) now ls v u hv hp hgt).2.2.1]

/-- One event keeps `isUnlocked` and the unlock key in agreement. -/
theorem step_unlock_agree (env : Option String) (d : DoorLock) (e : Event)
    (h : d.state.isUnlocked
      = decide (getItem d.localStorage (DOOR_LOCK_CONFIG env).storageKeys.unlockState
          = some "true")) :
    (step (DOOR_LOCK_CONFIG env) d e).state.isUnlocked
      = decide (getItem (step (DOOR_LOCK_CONFIG env) d e).localStorage
          (DOOR_LOCK_CONFIG env).storageKeys.unlockState = some "true") := by
  have hver : ∀ (now : Int) (p : Option String),
      (verifyPassword (DOOR_LOCK_CONFIG env) now d p).state.isUnlocked
        = decide (getItem (verifyPassword (DOOR_LOCK_CONFIG env) now d p).localStorage
            (DOOR_LOCK_CONFIG env).storageKeys.unlockState = some "true") := by
    intro now p
    cases hl : d.state.isLockedOut with
    | true =>
      have : verifyPassword (DOOR_LOCK_CONFIG env) now d p = d := by
        simp [verifyPassword, hl]
      rw [this]
      exact h
    | false =>
      by_cases hp : p.getD d.state.password = (DOOR_LOCK_CONFIG env).correctPassword
      · rw [verifyPassword_match _ now d p hl hp]
        show true = decide (getItem (removeItem (setItem _ _ _) _) _ = _)
        rw [getItem_removeItem_other _ _ _ (by simp), getItem_setItem_same]
        rfl
      · cases hb : JSNum.ge (JSNum.add d.state.attemptCount (JSNum.num 1))
            (JSNum.num (DOOR_LOCK_CONFIG env).maxAttempts) with
        | false =>
          rw [verifyPassword_mismatch_below _ now d p hl hp hb]
          show d.state.isUnlocked = decide (getItem (setItem _ _ _) _ = _)
          rw [getItem_setItem_other _ _ _ _ (by simp)]
          exact h
        | true =>
          rw [verifyPassword_mismatch_limit _ now d p hl hp hb]
          show d.state.isUnlocked = decide (getItem (setItem (setItem _ _ _) _ _) _ = _)
          rw [getItem_setItem_other _ _ _ _ (by simp), getItem_setItem_other _ _ _ _ (by simp)]
          exact h
  have hclr : (clearPassword d).state.isUnlocked
      = decide (getItem (clearPassword d).localStorage
          (DOOR_LOCK_CONFIG env).storageKeys.unlockState = some "true") := by
    simp only [clearPassword]
    split
    · exact h
    · exact h
  cases e with
  | updatePassword value =>
    simp only [step, updatePassword]
    split
    · exact h
    · split
      · exact h
      · exact h
  | verifyPassword p now => exact hver now p
  | lockDoor =>
    show false = decide (getItem (removeItem _ _) _ = _)
    rw [getItem_removeItem_same]
    rfl
  | clearPassword => exact hclr
  | handleKeyPress key now =>
    simp only [step, handleKeyPress]
    split
    · exact h
    · split
      · exact hver now none
      · split
        · exact hclr
        · exact h
  | countdownTick =>
    simp only [step, countdownTick]
    split
    · exact h
    · split
      · show d.state.isUnlocked = decide (getItem (removeItem (removeItem _ _) _) _ = _)
        rw [getItem_removeItem_other _ _ _ (by simp), getItem_removeItem_other _ _ _ (by simp)]
        exact h
      · exact h
  | clearErrorState => exact h

theorem run_unlock_agree (env : Option String) : ∀ (es : List Event) (d : DoorLock),
    d.state.isUnlocked
      = decide (getItem d.localStorage (DOOR_LOCK_CONFIG env).storageKeys.unlockState
          = some "true") →
    (run (DOOR_LOCK_CONFIG env) d es).state.isUnlocked
      = decide (getItem (run (DOOR_LOCK_CONFIG env) d es).localStorage
          (DOOR_LOCK_CONFIG env).storageKeys.unlockState = some "true") := by
  intro es
  induction es with
  | nil => intro d h; exact h
  | cons e rest ih =>
    intro d h
    rw [run_cons]
    exact ih _ (step_unlock_agree env d e h)

/-- C26: in every state reached by loading any persisted storage and then
handling any sequence of handler calls, countdown ticks and error-clear
callbacks, `isUnlocked` is true if and only if the unlock key of the storage
holds exactly the string "true". -/
theorem unlock_flag_agrees_with_storage (env : Option String) (now : Int) (ls : Store)
    (es : List Event) :
    (run (DOOR_LOCK_CONFIG env) (loadPersistedState (DOOR_LOCK_CONFIG env) now ls)
        es).state.isUnlocked = true
      ↔ getItem (run (DOOR_LOCK_CONFIG env) (loadPersistedState (DOOR_LOCK_CONFIG env) now ls)
          es).localStorage (DOOR_LOCK_CONFIG env).storageKeys.unlockState = some "true" := by
  have h0 : (loadPersistedState (DOOR_LOCK_CONFIG env) now ls).state.isUnlocked
      = decide (getItem (loadPersistedState (DOOR_LOCK_CONFIG env) now ls).localStorage
          (DOOR_LOCK_CONFIG env).storageKeys.unlockState = some "true") := by
    rw [loadPersistedState_unlockKey, loadPersistedState_isUnlocked]
  have h := run_unlock_agree env es _ h0
  rw [h]
  simp

/-- C25 at a concrete input: a lockout until 5000 loaded at time 0, two ticks
later, is still locked out and has time remaining. -/
theorem lockout_has_time_remaining_witness :
    (run (DOOR_LOCK_CONFIG none)
      (loadPersistedState (DOOR_LOCK_CONFIG none) 0 [("doorLock_lockoutUntil", "5000")])
      [Event.countdownTick, Event.updatePassword "1", Event.countdownTick]).state.isLockedOut
      = true
    ∧ 1 ≤ (run (DOOR_LOCK_CONFIG none)
      (loadPersistedState (DOOR_LOCK_CONFIG none) 0 [("doorLock_lockoutUntil", "5000")])
      [Event.countdownTick, Event.updatePassword "1",
        Event.countdownTick]).state.lockoutTimeRemaining
    ∧ (run (DOOR_LOCK_CONFIG none)
      (loadPersistedState (DOOR_LOCK_CONFIG none) 0 [("doorLock_lockoutUntil", "5000")])
      [Event.countdownTick, Event.updatePassword "1",
        Event.countdownTick]).state.lockoutTimeRemaining = 3 :=
  ⟨by decide,
    (lockout_has_time_remaining none 0 [("doorLock_lockoutUntil", "5000")]
      [Event.countdownTick, Event.updatePassword "1", Event.countdownTick] (by decide)).1,
    by decide⟩

end DoorLock
